import Mathlib

/-!
# Trace dispatch macros of `wsf_trace.h`

A shallow embedding of the preprocessor layer of
`Libraries/Cordio/wsf/include/wsf_trace.h`: the build flags, the
conditional chain that picks one block of `#define`s, the bodies of the
dispatch macros `WSF_TRACEn` / `WSF_TRACEnV`, the per-subsystem macros built
on them, macro expansion by parameter substitution, and the evaluation of the
integer expressions that a tokenized call site hands to `WsfToken`.

Integers are naturals; a conversion to `uint32_t` is `% 2 ^ 32`.  A scalar
argument stands for its bit pattern.

The functions that the header only declares (`WsfTrace`, `WsfToken`,
`WsfTraceEnable`, the two registration functions and `WsfTokenService`) have
no body in the sources; their section follows the specification text and every
definition in it says so.
-/

namespace WsfTrace

/-! ## Build flags (lines 42-55, 137) -/

/-- What the build supplies to the header.  `TRUE` and `FALSE` come from
`wsf_types.h`, which is not part of the sources at hand, so their values are
parameters.  A flag is `none` when no compile-time directive defines it. -/
structure Build where
  TRUE : Int
  FALSE : Int
  /-- Whether `TOKEN_GENERATION` is defined (`#ifdef`, line 137) -/
  TOKEN_GENERATION : Bool
  WSF_TRACE_ENABLED : Option Int
  WSF_TOKEN_ENABLED : Option Int
  WSF_TRACE_ENABLED_VERBOSE : Option Int
deriving DecidableEq

/-- Lines 42-45: `#ifndef WSF_TRACE_ENABLED` / `#define WSF_TRACE_ENABLED FALSE`. -/
def Build.traceEnabled (b : Build) : Int := b.WSF_TRACE_ENABLED.getD b.FALSE

/-- Lines 47-50: `#ifndef WSF_TOKEN_ENABLED` / `#define WSF_TOKEN_ENABLED FALSE`. -/
def Build.tokenEnabled (b : Build) : Int := b.WSF_TOKEN_ENABLED.getD b.FALSE

/-- Lines 52-55: `#ifndef WSF_TRACE_ENABLED_VERBOSE` / `#define ... FALSE`. -/
def Build.verboseEnabled (b : Build) : Int := b.WSF_TRACE_ENABLED_VERBOSE.getD b.FALSE

/-! ## The conditional chain of lines 137-256 -/

/-- The four groups of the chain `#ifdef` / `#elif` / `#elif` / `#else`. -/
inductive Backend
  | Generation
  | TokenizedBinary
  | FormattedText
  | Disabled
deriving DecidableEq

/-- The controlling conditions of the chain. -/
inductive Cond
  /-- Line 137, `#ifdef TOKEN_GENERATION` -/
  | tokenGenerationDefined
  /-- Line 150, `#elif WSF_TOKEN_ENABLED == TRUE` -/
  | tokenEnabledIsTrue
  /-- Line 166, `#elif WSF_TRACE_ENABLED == TRUE` -/
  | traceEnabledIsTrue
deriving DecidableEq

/-- Value of a controlling condition in a build. -/
def Cond.holds (b : Build) : Cond → Bool
  | .tokenGenerationDefined => b.TOKEN_GENERATION
  | .tokenEnabledIsTrue => b.tokenEnabled == b.TRUE
  | .traceEnabledIsTrue => b.traceEnabled == b.TRUE

/-- The conditional groups in source order; the `#else` group is
`dispatchElse`. -/
def dispatchChain : List (Cond × Backend) :=
  [ (.tokenGenerationDefined, .Generation),
    (.tokenEnabledIsTrue, .TokenizedBinary),
    (.traceEnabledIsTrue, .FormattedText) ]

/-- The `#else` group of line 232. -/
def dispatchElse : Backend := .Disabled

/-- Preprocessor rule for a conditional chain: the group of the first
condition that holds is processed, the `#else` group when none holds. -/
def takeGroup (b : Build) : List (Cond × Backend) → Backend → Backend
  | [], e => e
  | (c, g) :: rest, e => if c.holds b then g else takeGroup b rest e

/-- The group of lines 137-256 that a build processes. -/
def backend (b : Build) : Backend := takeGroup b dispatchChain dispatchElse

/-! ## Names, parameters and replacement lists -/

/-- Subsystem prefixes of the per-subsystem macros (lines 258-654). -/
inductive Subsys
  | WSF | HCI | DM | L2C | ATT | EATT | SMP | APP | LL | BBP | AUD | MESH | MMDL
deriving DecidableEq

/-- Severity part of a per-subsystem macro name. -/
inductive Sev
  | INFO | WARN | ERR | ALLOC | FREE | MSG
deriving DecidableEq

/-- The six protocol-dump macros `HCI_PDUMP_*` (lines 332-343). -/
inductive Pdump
  | CMD | EVT | TX_ACL | RX_ACL | TX_ISO | RX_ISO
deriving DecidableEq

/-- Macro names of the header. `WSF_TRACE n` is `WSF_TRACEn`, `WSF_TRACEV n`
is `WSF_TRACEnV`, `TRACE s v n` is e.g. `HCI_TRACE_INFO1`. -/
inductive MacroName
  | WSF_TOKEN
  | WSF_TRACE (n : Nat)
  | WSF_TRACEV (n : Nat)
  | TRACE (s : Subsys) (v : Sev) (n : Nat)
  | HCI_PDUMP (k : Pdump)
  | LL_TRACE_ENABLE
deriving DecidableEq

/-- Macro parameters. `var i` is `var<i>`. -/
inductive Param
  | subsys | stat | msg
  | var (i : Nat)
  | ena | len | pBuf
deriving DecidableEq

/-- Expressions that occur in replacement lists and as macro arguments. -/
inductive CExpr
  /-- The line number `__LINE__` of the call site -/
  | LINE
  /-- The file name `__FILE__` -/
  | FILE
  /-- The constant `MODULE_ID`, defined by the build per translation unit -/
  | MODULE_ID
  /-- An integer constant -/
  | lit (n : Nat)
  /-- A string literal -/
  | str (s : String)
  /-- A bare identifier -/
  | ident (s : String)
  /-- A macro parameter -/
  | param (p : Param)
  /-- Bitwise and, `a & c` -/
  | band (a c : CExpr)
  /-- Bitwise or, `a | c` -/
  | bor (a c : CExpr)
  /-- Left shift, `a << c` -/
  | shl (a c : CExpr)
  /-- The cast `(uint32_t)(a)` -/
  | castU32 (a : CExpr)
deriving DecidableEq

/-- What a replacement list calls: a function of the trace runtime, the
external `__WSF_TOKEN_DEFINE__`, or another macro of this header. -/
inductive Callee
  | WsfToken
  | WsfTrace
  | WsfTraceVerbose
  | WsfTraceEnable
  | WSF_TOKEN_DEFINE
  | mac (m : MacroName)
deriving DecidableEq

/-- A replacement list: empty, or one call. -/
inductive Body
  | empty
  | call (f : Callee) (args : List CExpr)
deriving DecidableEq

/-- A `#define`: parameter list and replacement list. -/
structure MacroDef where
  params : List Param
  body : Body
deriving DecidableEq

/-- The parameters `var1, ..., varn`. -/
def varParams (n : Nat) : List Param := (List.range n).map fun i => Param.var (i + 1)

/-- Parameter list `(subsys, stat, msg, var1, ..., varn)` of a dispatch macro. -/
def dispatchParams (n : Nat) : List Param := [.subsys, .stat, .msg] ++ varParams n

/-- Parameter list `(msg, var1, ..., varn)` of a per-subsystem macro. -/
def subsysParams (n : Nat) : List Param := .msg :: varParams n

/-- The arguments `msg, var1, ..., varn` passed on. -/
def msgAndVars (n : Nat) : List CExpr := ((.msg :: varParams n).map CExpr.param)

/-- Arities for which the formatted and disabled groups define `WSF_TRACEn`
and `WSF_TRACEnV`: 0 to 9 and 12. -/
def dispatchArities : List Nat := [0, 1, 2, 3, 4, 5, 6, 7, 8, 9, 12]

/-! ## The four groups of dispatch macros -/

/-- The token `((__LINE__ & 0xFFF) << 16) | MODULE_ID` (lines 157, 159, 161, 163). -/
def tokenExpr : CExpr :=
  .bor (.shl (.band .LINE (.lit 0xFFF)) (.lit 16)) .MODULE_ID

/-- The packed argument `(uint32_t)(var1)` of `WSF_TRACE1` (line 159). -/
def packed1 : CExpr := .castU32 (.param (.var 1))

/-- The packed argument `(uint32_t)(((var2) << 16) | ((var1) & 0xFFFF))` of
`WSF_TRACE2` (line 161). -/
def packed2 : CExpr :=
  .castU32 (.bor (.shl (.param (.var 2)) (.lit 16)) (.band (.param (.var 1)) (.lit 0xFFFF)))

/-- The packed argument
`(uint32_t)((((var3) & 0xFFFF) << 16) | (((var2) & 0xFF) << 8) | ((var1) & 0xFF))`
of `WSF_TRACE3` (line 163). -/
def packed3 : CExpr :=
  .castU32
    (.bor
      (.bor (.shl (.band (.param (.var 3)) (.lit 0xFFFF)) (.lit 16))
            (.shl (.band (.param (.var 2)) (.lit 0xFF)) (.lit 8)))
      (.band (.param (.var 1)) (.lit 0xFF)))

/-- Lines 139-148, the group of `#ifdef TOKEN_GENERATION`. -/
def generationBlock : MacroName → Option MacroDef
  | .WSF_TOKEN =>
      some ⟨[.subsys, .stat, .msg],
        .call .WSF_TOKEN_DEFINE
          [.MODULE_ID, .LINE, .FILE, .param .subsys, .param .stat, .param .msg]⟩
  | .WSF_TRACE n =>
      if n < 4 then
        some ⟨dispatchParams n,
          .call (.mac .WSF_TOKEN) [.param .subsys, .param .stat, .param .msg]⟩
      else none
  | _ => none

/-- Lines 156-163, the group of `#elif WSF_TOKEN_ENABLED == TRUE`. -/
def tokenBlock : MacroName → Option MacroDef
  | .WSF_TRACE 0 => some ⟨dispatchParams 0, .call .WsfToken [tokenExpr, .lit 0]⟩
  | .WSF_TRACE 1 => some ⟨dispatchParams 1, .call .WsfToken [tokenExpr, packed1]⟩
  | .WSF_TRACE 2 => some ⟨dispatchParams 2, .call .WsfToken [tokenExpr, packed2]⟩
  | .WSF_TRACE 3 => some ⟨dispatchParams 3, .call .WsfToken [tokenExpr, packed3]⟩
  | _ => none

/-- Lines 171-230, the group of `#elif WSF_TRACE_ENABLED == TRUE`, with its
nested `#if WSF_TRACE_ENABLED_VERBOSE == TRUE` (line 194). -/
def formattedBlock (b : Build) : MacroName → Option MacroDef
  | .WSF_TRACE n =>
      if n ∈ dispatchArities then
        some ⟨dispatchParams n, .call .WsfTrace (msgAndVars n)⟩
      else none
  | .WSF_TRACEV n =>
      if n ∈ dispatchArities then
        if b.verboseEnabled == b.TRUE then
          some ⟨dispatchParams n, .call .WsfTraceVerbose (msgAndVars n)⟩
        else some ⟨dispatchParams n, .empty⟩
      else none
  | _ => none

/-- Lines 233-254, the `#else` group. -/
def disabledBlock : MacroName → Option MacroDef
  | .WSF_TRACE n => if n ∈ dispatchArities then some ⟨dispatchParams n, .empty⟩ else none
  | .WSF_TRACEV n => if n ∈ dispatchArities then some ⟨dispatchParams n, .empty⟩ else none
  | _ => none

/-- The `#define`s of a group of the chain. -/
def block (b : Build) : Backend → MacroName → Option MacroDef
  | .Generation => generationBlock
  | .TokenizedBinary => tokenBlock
  | .FormattedText => formattedBlock b
  | .Disabled => disabledBlock

/-! ## Per-subsystem macros (lines 258-654) and `LL_TRACE_ENABLE` (656-661) -/

/-- How the macros of one subsystem and severity are defined: with an empty
replacement list, through `WSF_TRACEn`, or through `WSF_TRACEnV`. -/
inductive Route
  | silent
  | plain
  | verbose
deriving DecidableEq

/-- The definition style of each family `<SUBSYS>_TRACE_<SEV>n`; `none` when
the header has no such family. -/
def route : Subsys → Sev → Option Route
  | .WSF, .INFO => some .silent
  | .WSF, .WARN => some .plain
  | .WSF, .ERR => some .plain
  | .WSF, .ALLOC => some .silent
  | .WSF, .FREE => some .silent
  | .WSF, .MSG => some .silent
  | .HCI, .INFO => some .verbose
  | .HCI, .WARN => some .verbose
  | .HCI, .ERR => some .verbose
  | .DM, .INFO => some .plain
  | .DM, .WARN => some .plain
  | .DM, .ERR => some .plain
  | .DM, .ALLOC => some .plain
  | .DM, .FREE => some .plain
  | .L2C, .INFO => some .verbose
  | .L2C, .WARN => some .verbose
  | .L2C, .ERR => some .verbose
  | .ATT, .INFO => some .verbose
  | .ATT, .WARN => some .verbose
  | .ATT, .ERR => some .verbose
  | .EATT, .INFO => some .plain
  | .EATT, .WARN => some .plain
  | .EATT, .ERR => some .plain
  | .SMP, .INFO => some .plain
  | .SMP, .WARN => some .plain
  | .SMP, .ERR => some .plain
  | .APP, .INFO => some .plain
  | .APP, .WARN => some .plain
  | .APP, .ERR => some .plain
  | .LL, .INFO => some .verbose
  | .LL, .WARN => some .verbose
  | .LL, .ERR => some .verbose
  | .BBP, .INFO => some .verbose
  | .BBP, .WARN => some .verbose
  | .BBP, .ERR => some .verbose
  | .AUD, .INFO => some .verbose
  | .AUD, .WARN => some .verbose
  | .AUD, .ERR => some .verbose
  | .MESH, .INFO => some .plain
  | .MESH, .WARN => some .plain
  | .MESH, .ERR => some .plain
  | .MMDL, .INFO => some .plain
  | .MMDL, .WARN => some .plain
  | .MMDL, .ERR => some .plain
  | _, _ => none

/-- Arities of a family: 0 to 3, and for `APP_TRACE_INFO` also 4 to 9 and 12
(lines 486-505). -/
def subsysArities (s : Subsys) (v : Sev) : List Nat :=
  if s = .APP ∧ v = .INFO then dispatchArities else [0, 1, 2, 3]

/-- Subsystem name as written in the string literal. -/
def Subsys.tag : Subsys → String
  | .WSF => "WSF" | .HCI => "HCI" | .DM => "DM" | .L2C => "L2C" | .ATT => "ATT"
  | .EATT => "EATT" | .SMP => "SMP" | .APP => "APP" | .LL => "LL" | .BBP => "BBP"
  | .AUD => "AUD" | .MESH => "MESH" | .MMDL => "MMDL"

/-- Severity name as written in the string literal. -/
def Sev.tag : Sev → String
  | .INFO => "INFO" | .WARN => "WARN" | .ERR => "ERR"
  | .ALLOC => "ALLOC" | .FREE => "FREE" | .MSG => "MSG"

/-- The two leading arguments of the dispatch call: the quoted subsystem and
severity, except in `APP_TRACE_INFO4` to `APP_TRACE_INFO12`, which pass the
bare identifiers `INFO, APP`. -/
def subsysTags (s : Subsys) (v : Sev) (n : Nat) : List CExpr :=
  if s = .APP ∧ v = .INFO ∧ 4 ≤ n then [.ident "INFO", .ident "APP"]
  else [.str s.tag, .str v.tag]

/-- The `#define` of `<SUBSYS>_TRACE_<SEV>n`, if the header has one. -/
def subsysDef (s : Subsys) (v : Sev) (n : Nat) : Option MacroDef :=
  match route s v with
  | none => none
  | some r =>
    if n ∈ subsysArities s v then
      some ⟨subsysParams n,
        match r with
        | .silent => .empty
        | .plain => .call (.mac (.WSF_TRACE n)) (subsysTags s v n ++ msgAndVars n)
        | .verbose => .call (.mac (.WSF_TRACEV n)) (subsysTags s v n ++ msgAndVars n)⟩
    else none

/-- Lines 656-661. -/
def llTraceEnableDef (b : Build) : MacroDef :=
  ⟨[.ena],
    if b.traceEnabled == b.TRUE || b.tokenEnabled == b.TRUE then
      .call .WsfTraceEnable [.param .ena]
    else .empty⟩

/-- The definition that a name has after the header is processed in build
`b`; `none` when the name is not defined as a macro. -/
def macroDef (b : Build) : MacroName → Option MacroDef
  | .TRACE s v n => subsysDef s v n
  | .HCI_PDUMP _ => some ⟨[.len, .pBuf], .empty⟩
  | .LL_TRACE_ENABLE => some (llTraceEnableDef b)
  | m => block b (backend b) m

/-! ## Macro expansion -/

/-- The argument bound to a parameter, if any. -/
def bind : List Param → List CExpr → Param → Option CExpr
  | p :: ps, a :: as, q => if p = q then some a else bind ps as q
  | _, _, _ => none

/-- Replace the parameters of a replacement list by the arguments. -/
def CExpr.subst (σ : Param → Option CExpr) : CExpr → CExpr
  | .param p => (σ p).getD (.param p)
  | .band a c => .band (a.subst σ) (c.subst σ)
  | .bor a c => .bor (a.subst σ) (c.subst σ)
  | .shl a c => .shl (a.subst σ) (c.subst σ)
  | .castU32 a => .castU32 (a.subst σ)
  | e => e

/-- Substitution in a replacement list. -/
def Body.subst (σ : Param → Option CExpr) : Body → Body
  | .empty => .empty
  | .call f args => .call f (args.map (CExpr.subst σ))

/-- One rescan: an invocation of a defined macro is replaced by its
replacement list; `none` when the number of arguments does not fit the
parameter list.  A name without a definition is left in place. -/
def expandStep (b : Build) : Body → Option Body
  | .call (.mac m) args =>
    match macroDef b m with
    | none => some (.call (.mac m) args)
    | some d =>
      if d.params.length = args.length then some (d.body.subst (bind d.params args))
      else none
  | body => some body

/-- Full expansion.  The deepest nesting in the header is
per-subsystem macro, then `WSF_TRACEn`, then `WSF_TOKEN`: three rescans. -/
def expand (b : Build) (body : Body) : Option Body :=
  (expandStep b body).bind fun b1 => (expandStep b b1).bind fun b2 => expandStep b b2

/-- The text a macro invocation `m(args)` leaves behind. -/
def invoke (b : Build) (m : MacroName) (args : List CExpr) : Option Body :=
  expand b (.call (.mac m) args)

/-! ## Evaluation at a tokenized call site -/

/-- Value of an integer expression at a call site on line `line` of a
translation unit built with `MODULE_ID = moduleId`; `none` for text that is
not an integer expression. -/
def CExpr.eval (line moduleId : Nat) : CExpr → Option Nat
  | .LINE => some line
  | .MODULE_ID => some moduleId
  | .lit n => some n
  | .band a c => (a.eval line moduleId).bind fun x => (c.eval line moduleId).map fun y => x &&& y
  | .bor a c => (a.eval line moduleId).bind fun x => (c.eval line moduleId).map fun y => x ||| y
  | .shl a c => (a.eval line moduleId).bind fun x => (c.eval line moduleId).map fun y => x <<< y
  | .castU32 a => (a.eval line moduleId).map fun x => x % 2 ^ 32
  | _ => none

/-- The pair `(tok, var)` that `WsfToken` receives from a call in expanded
text.  Both parameters are `uint32_t` (line 79), so each argument is
converted. -/
def wsfTokenArgs (line moduleId : Nat) : Body → Option (Nat × Nat)
  | .call .WsfToken [t, v] =>
    (t.eval line moduleId).bind fun x =>
      (v.eval line moduleId).map fun y => (x % 2 ^ 32, y % 2 ^ 32)
  | _ => none

/-- A call site `WSF_TRACEn(subsys, stat, msg, v1, ..., vn)` with scalar
argument values `vals`, on line `line`: what reaches `WsfToken`. -/
def traceToken (b : Build) (line moduleId : Nat) (subsys stat msg : CExpr)
    (vals : List Nat) : Option (Nat × Nat) :=
  (invoke b (.WSF_TRACE vals.length) (subsys :: stat :: msg :: vals.map CExpr.lit)).bind
    (wsfTokenArgs line moduleId)

/-! ## Example builds -/

/-- A build with `TRUE = 1`, `FALSE = 0`, `WSF_TOKEN_ENABLED` set to 1 on the
command line and nothing else defined. -/
def exampleTokenBuild : Build := ⟨1, 0, false, none, some 1, none⟩

/-- A build with `TRUE = 1`, `FALSE = 0` and no flag defined. -/
def exampleDefaultBuild : Build := ⟨1, 0, false, none, none, none⟩

/-- A build with `TRUE = 1`, `FALSE = 0` that sets both `WSF_TRACE_ENABLED`
and `WSF_TOKEN_ENABLED` to 1. -/
def exampleBothBuild : Build := ⟨1, 0, false, some 1, some 1, none⟩

/-- A build that defines `TOKEN_GENERATION` and also sets both enable flags. -/
def exampleGenerationBuild : Build := ⟨1, 0, true, some 1, some 1, none⟩

/-- A build with `TRUE = 1`, `FALSE = 0` that sets `WSF_TRACE_ENABLED` to 1
and leaves `WSF_TRACE_ENABLED_VERBOSE` at its default. -/
def exampleFormattedBuild : Build := ⟨1, 0, false, some 1, none, none⟩

/-- A build with `TRUE = 1`, `FALSE = 0` that sets `WSF_TRACE_ENABLED` and
`WSF_TRACE_ENABLED_VERBOSE` to 1. -/
def exampleVerboseBuild : Build := ⟨1, 0, false, some 1, none, some 1⟩

/-! ## Runtime behind the prototypes of lines 79-131

The header declares `WsfToken`, `WsfTraceEnable`, `WsfTrace`,
`WsfTraceVerbose`, `WsfTraceRegisterHandler`, `WsfTraceRegister` and
`WsfTokenService`; their bodies are not among the sources.  The definitions of
this section follow the specification text. -/

/-- Modelled from the spec: a rendered message as the text sink receives it,
the template and the argument values (the body of `WsfTrace` is missing). -/
structure TextEvent where
  template : String
  args : List Nat
deriving DecidableEq

/-- Modelled from the spec: the runtime state of the trace facility, whose
implementation is missing.  `enabled` is EnableState, `sink` and `handler` the
registered callbacks (at most one each, named by a number), `queue` the
pending (token, packed argument) pairs, oldest first, bounded by `capacity`,
`lost` the lost-event counter.  `sinkCalls` and `handlerCalls` record every
invocation of a callback, oldest first. -/
structure Runtime where
  enabled : Bool
  sink : Option Nat
  handler : Option Nat
  queue : List (Nat × Nat)
  capacity : Nat
  lost : Nat
  sinkCalls : List (Nat × TextEvent)
  handlerCalls : List (Nat × (Nat × Nat))
deriving DecidableEq

/-- Modelled from the spec: the state at start-up, the implementation being
missing: tracing disabled, nothing registered, nothing pending. -/
def Runtime.init (capacity : Nat) : Runtime :=
  ⟨false, none, none, [], capacity, 0, [], []⟩

/-- Modelled from the spec: `WsfTraceEnable` (body missing) sets
EnableState and nothing else. -/
def Runtime.WsfTraceEnable (st : Runtime) (enable : Bool) : Runtime :=
  { st with enabled := enable }

/-- Modelled from the spec: `WsfTraceRegister` (body missing) replaces
the text sink; the previous registration is dropped. -/
def Runtime.WsfTraceRegister (st : Runtime) (cback : Nat) : Runtime :=
  { st with sink := some cback }

/-- Modelled from the spec: `WsfTraceRegisterHandler` (body missing)
replaces the token handler; the previous registration is dropped. -/
def Runtime.WsfTraceRegisterHandler (st : Runtime) (traceCback : Nat) : Runtime :=
  { st with handler := some traceCback }

/-- Modelled from the spec: `WsfTrace` (body missing).  With EnableState
false, or with no sink registered, nothing happens; otherwise the registered
sink is invoked once with the rendered message. -/
def Runtime.WsfTrace (st : Runtime) (ev : TextEvent) : Runtime :=
  if st.enabled then
    match st.sink with
    | some c => { st with sinkCalls := st.sinkCalls ++ [(c, ev)] }
    | none => st
  else st

/-- Modelled from the spec: `WsfTraceVerbose` (body missing).  The
verbose gate is a build flag; at run time the call behaves as `WsfTrace`. -/
def Runtime.WsfTraceVerbose (st : Runtime) (ev : TextEvent) : Runtime :=
  st.WsfTrace ev

/-- Modelled from the spec: `WsfToken` (body missing).  With EnableState
false nothing happens; otherwise the pair is pushed on the pending queue, or,
when the queue is full, dropped and counted as lost. -/
def Runtime.WsfToken (st : Runtime) (tok var : Nat) : Runtime :=
  if st.enabled then
    if st.queue.length < st.capacity then { st with queue := st.queue ++ [(tok, var)] }
    else { st with lost := st.lost + 1 }
  else st

/-- Modelled from the spec: `WsfTokenService` (body missing).  `accept`
is the number of events the registered handler can take during this call.
The oldest pending events, as many as the handler accepts, are handed to it
one invocation each; the result says whether events are still pending. -/
def Runtime.WsfTokenService (st : Runtime) (accept : Nat) : Runtime × Bool :=
  match st.handler with
  | none => (st, !st.queue.isEmpty)
  | some h =>
    let st' : Runtime :=
      { st with
        queue := st.queue.drop accept
        handlerCalls := st.handlerCalls ++ (st.queue.take accept).map fun e => (h, e) }
    (st', !st'.queue.isEmpty)

/-- Modelled from the spec: the operations of the runtime (bodies
missing), as one step each. -/
inductive Op
  | enable (e : Bool)
  | trace (ev : TextEvent)
  | traceVerbose (ev : TextEvent)
  | token (tok var : Nat)
  | service (accept : Nat)
  | register (cback : Nat)
  | registerHandler (traceCback : Nat)
deriving DecidableEq

/-- Modelled from the spec: effect of one operation on the runtime state
(bodies missing). -/
def Runtime.step (st : Runtime) : Op → Runtime
  | .enable e => st.WsfTraceEnable e
  | .trace ev => st.WsfTrace ev
  | .traceVerbose ev => st.WsfTraceVerbose ev
  | .token tok var => st.WsfToken tok var
  | .service accept => (st.WsfTokenService accept).1
  | .register c => st.WsfTraceRegister c
  | .registerHandler h => st.WsfTraceRegisterHandler h

/-- Modelled from the spec: a sequence of operations, first to last
(bodies missing). -/
def Runtime.run (st : Runtime) (ops : List Op) : Runtime := ops.foldl Runtime.step st

/-! ## Executing a call site -/

/-- The argument expressions that the statement left by an expansion
evaluates when control reaches it: none for empty text, and for a function
call every argument, since a call evaluates all its arguments before the
function is entered.  Text that still calls a macro name is not a statement of
the program. -/
def Body.evaluated : Body → Option (List CExpr)
  | .empty => some []
  | .call (.mac _) _ => none
  | .call _ args => some args

/-- Values of a list of argument expressions, `none` when one of them is not
an integer expression. -/
def evalArgs (line moduleId : Nat) : List CExpr → Option (List Nat)
  | [] => some []
  | a :: as =>
    (a.eval line moduleId).bind fun x => (evalArgs line moduleId as).map fun xs => x :: xs

/-- Modelled from the spec: the effect on the runtime state of the statement
left by an expansion, the called functions being those of the runtime above,
whose implementation is missing.  Empty text does nothing; a call hands the
values of its arguments to the function. -/
def execBody (line moduleId : Nat) (st : Runtime) : Body → Option Runtime
  | .empty => some st
  | .call .WsfTrace (.str f :: args) =>
    (evalArgs line moduleId args).map fun vs => st.WsfTrace ⟨f, vs⟩
  | .call .WsfTraceVerbose (.str f :: args) =>
    (evalArgs line moduleId args).map fun vs => st.WsfTraceVerbose ⟨f, vs⟩
  | .call .WsfToken [t, v] =>
    (t.eval line moduleId).bind fun x =>
      (v.eval line moduleId).map fun y => st.WsfToken (x % 2 ^ 32) (y % 2 ^ 32)
  | .call .WsfTraceEnable [e] =>
    (e.eval line moduleId).map fun x => st.WsfTraceEnable (x != 0)
  | _ => none

/-- Modelled from the spec: a call site `m(args)` of build `b` on line
`line`, executed in state `st` (the functions it calls have no body in the
sources). -/
def execSite (b : Build) (line moduleId : Nat) (st : Runtime) (m : MacroName)
    (args : List CExpr) : Option Runtime :=
  (invoke b m args).bind (execBody line moduleId st)

/-! ## Which group a build processes -/

theorem backend_tokenized_iff (b : Build) :
    backend b = .TokenizedBinary ↔ b.TOKEN_GENERATION = false ∧ b.tokenEnabled = b.TRUE := by
  simp only [backend, dispatchChain, dispatchElse, takeGroup, Cond.holds]
  cases b.TOKEN_GENERATION <;> by_cases h1 : b.tokenEnabled = b.TRUE <;>
    by_cases h2 : b.traceEnabled = b.TRUE <;> simp [h1, h2]

theorem backend_disabled_iff (b : Build) :
    backend b = .Disabled ↔
      b.TOKEN_GENERATION = false ∧ b.tokenEnabled ≠ b.TRUE ∧ b.traceEnabled ≠ b.TRUE := by
  simp only [backend, dispatchChain, dispatchElse, takeGroup, Cond.holds]
  cases b.TOKEN_GENERATION <;> by_cases h1 : b.tokenEnabled = b.TRUE <;>
    by_cases h2 : b.traceEnabled = b.TRUE <;> simp [h1, h2]

theorem backend_generation_iff (b : Build) :
    backend b = .Generation ↔ b.TOKEN_GENERATION = true := by
  simp only [backend, dispatchChain, dispatchElse, takeGroup, Cond.holds]
  cases b.TOKEN_GENERATION <;> by_cases h1 : b.tokenEnabled = b.TRUE <;>
    by_cases h2 : b.traceEnabled = b.TRUE <;> simp [h1, h2]

/-! ## Lengths of parameter and argument lists -/

theorem length_varParams (n : Nat) : (varParams n).length = n := by simp [varParams]

theorem length_dispatchParams (n : Nat) : (dispatchParams n).length = n + 3 := by
  simp [dispatchParams, length_varParams]

theorem length_subsysParams (n : Nat) : (subsysParams n).length = n + 1 := by
  simp [subsysParams, length_varParams]

theorem length_msgAndVars (n : Nat) : (msgAndVars n).length = n + 1 := by
  simp [msgAndVars, length_varParams]

theorem length_subsysTags (s : Subsys) (v : Sev) (n : Nat) : (subsysTags s v n).length = 2 := by
  unfold subsysTags; split <;> rfl

theorem subsysArities_sub (s : Subsys) (v : Sev) (n : Nat) (h : n ∈ subsysArities s v) :
    n ∈ dispatchArities := by
  unfold subsysArities at h
  split at h
  · exact h
  · simp at h; rcases h with h | h | h | h <;> subst h <;> decide

/-! ## What a tokenized call site computes -/

theorem traceToken_zero (b : Build) (hb : backend b = .TokenizedBinary) (L M : Nat)
    (s t m : CExpr) :
    traceToken b L M s t m [] = some ((((L &&& 0xFFF) <<< 16) ||| M) % 2 ^ 32, 0) := by
  simp [traceToken, invoke, expand, expandStep, macroDef, hb, block, tokenBlock, dispatchParams,
    varParams, Body.subst, CExpr.subst, tokenExpr, wsfTokenArgs, CExpr.eval]

theorem traceToken_one (b : Build) (hb : backend b = .TokenizedBinary) (L M : Nat)
    (s t m : CExpr) (v1 : Nat) :
    traceToken b L M s t m [v1] = some ((((L &&& 0xFFF) <<< 16) ||| M) % 2 ^ 32, v1 % 2 ^ 32) := by
  simp [traceToken, invoke, expand, expandStep, macroDef, hb, block, tokenBlock, dispatchParams,
    varParams, Body.subst, CExpr.subst, tokenExpr, wsfTokenArgs, CExpr.eval, packed1, bind, List.range, List.range.loop]

theorem traceToken_two (b : Build) (hb : backend b = .TokenizedBinary) (L M : Nat)
    (s t m : CExpr) (v1 v2 : Nat) :
    traceToken b L M s t m [v1, v2] =
      some ((((L &&& 0xFFF) <<< 16) ||| M) % 2 ^ 32,
            ((v2 <<< 16) ||| (v1 &&& 0xFFFF)) % 2 ^ 32) := by
  simp [traceToken, invoke, expand, expandStep, macroDef, hb, block, tokenBlock, dispatchParams,
    varParams, Body.subst, CExpr.subst, tokenExpr, wsfTokenArgs, CExpr.eval, packed2, bind, List.range, List.range.loop]

theorem traceToken_three (b : Build) (hb : backend b = .TokenizedBinary) (L M : Nat)
    (s t m : CExpr) (v1 v2 v3 : Nat) :
    traceToken b L M s t m [v1, v2, v3] =
      some ((((L &&& 0xFFF) <<< 16) ||| M) % 2 ^ 32,
            ((((v3 &&& 0xFFFF) <<< 16) ||| ((v2 &&& 0xFF) <<< 8)) ||| (v1 &&& 0xFF)) % 2 ^ 32) := by
  simp [traceToken, invoke, expand, expandStep, macroDef, hb, block, tokenBlock, dispatchParams,
    varParams, Body.subst, CExpr.subst, tokenExpr, wsfTokenArgs, CExpr.eval, packed3, bind, List.range, List.range.loop]

theorem traceToken_more (b : Build) (hb : backend b = .TokenizedBinary) (L M : Nat)
    (s t m : CExpr) (vals : List Nat) (h : 4 ≤ vals.length) :
    traceToken b L M s t m vals = none := by
  obtain _ | ⟨a, _ | ⟨c, _ | ⟨d, _ | ⟨e, r⟩⟩⟩⟩ := vals <;> simp at h
  simp [traceToken, invoke, expand, expandStep, macroDef, hb, block, tokenBlock, wsfTokenArgs]

/-- The first component of what a tokenized call site with at most three
scalar arguments hands to `WsfToken`. -/
theorem traceToken_fst (b : Build) (hb : backend b = .TokenizedBinary)
    (L M : Nat) (s t m : CExpr) (vals : List Nat) (hn : vals.length ≤ 3) :
    (traceToken b L M s t m vals).map Prod.fst
      = some ((((L &&& 0xFFF) <<< 16) ||| M) % 2 ^ 32) := by
  obtain _ | ⟨a, _ | ⟨c, _ | ⟨d, _ | ⟨e, r⟩⟩⟩⟩ := vals
  · rw [traceToken_zero b hb]; rfl
  · rw [traceToken_one b hb]; rfl
  · rw [traceToken_two b hb]; rfl
  · rw [traceToken_three b hb]; rfl
  · simp at hn

/-! ## Arithmetic of the bit fields -/

/-- Masking with `0xFFF`, `0xFFFF`, `0xFF` is reduction modulo a power of two. -/
theorem mask12 (x : Nat) : x &&& 0xFFF = x % 4096 := Nat.and_pow_two_sub_one_eq_mod x 12
theorem mask16 (x : Nat) : x &&& 0xFFFF = x % 65536 := Nat.and_pow_two_sub_one_eq_mod x 16
theorem mask8 (x : Nat) : x &&& 0xFF = x % 256 := Nat.and_pow_two_sub_one_eq_mod x 8

/-- A shifted value and a value below the shift do not overlap: `|` is `+`. -/
theorem shl_or_eq_add (a i c : Nat) (h : c < 2 ^ i) : (a <<< i) ||| c = a * 2 ^ i + c := by
  rw [Nat.shiftLeft_eq, Nat.mul_comm a, ← Nat.mul_add_lt_is_or h]

theorem pack2_eq (v1 v2 : Nat) :
    ((v2 <<< 16) ||| (v1 &&& 0xFFFF)) = v2 * 65536 + v1 % 65536 := by
  rw [mask16, shl_or_eq_add _ _ _ (by omega)]; omega

theorem pack3_eq (v1 v2 v3 : Nat) :
    ((((v3 &&& 0xFFFF) <<< 16) ||| ((v2 &&& 0xFF) <<< 8)) ||| (v1 &&& 0xFF))
      = (v3 % 65536) * 65536 + (v2 % 256) * 256 + v1 % 256 := by
  rw [mask16, mask8, mask8]
  have h1 : (v3 % 65536) <<< 16 ||| (v2 % 256) <<< 8 = (v3 % 65536) * 65536 + (v2 % 256) * 256 := by
    rw [shl_or_eq_add _ _ _ (by rw [Nat.shiftLeft_eq]; omega), Nat.shiftLeft_eq]; omega
  have h2 : (v3 % 65536) * 65536 + (v2 % 256) * 256 = ((v3 % 65536) * 256 + v2 % 256) <<< 8 := by
    rw [Nat.shiftLeft_eq]; omega
  rw [h1, h2, shl_or_eq_add _ _ _ (by omega)]; omega

theorem token_eq_of_lt (L M : Nat) (hL : L < 4096) (hM : M < 65536) :
    ((L &&& 0xFFF) <<< 16) ||| M = L * 65536 + M := by
  rw [mask12, shl_or_eq_add _ _ _ (by omega), Nat.mod_eq_of_lt hL]; omega

theorem token_lt (L M : Nat) (hM : M < 2 ^ 32) : ((L &&& 0xFFF) <<< 16) ||| M < 2 ^ 32 := by
  apply Nat.or_lt_two_pow _ hM
  rw [mask12, Nat.shiftLeft_eq]; omega

/-! ## Token and packed argument (C1-C7) -/

/-- C1: in a Tokenized-Binary build, each of `WSF_TRACE0` to `WSF_TRACE3` (a
call site with at most three scalar arguments) hands `WsfToken` a first
argument equal to `((L & 0xFFF) << 16) | M` as a 32-bit value, for every line
`L` and module id `M`; when `M` fits in 32 bits this is the formula itself. -/
theorem token_is_line_and_module (b : Build) (hb : backend b = .TokenizedBinary)
    (L M : Nat) (s t m : CExpr) (vals : List Nat) (hn : vals.length ≤ 3) :
    (traceToken b L M s t m vals).map Prod.fst
        = some ((((L &&& 0xFFF) <<< 16) ||| M) % 2 ^ 32) ∧
    (M < 2 ^ 32 →
      (traceToken b L M s t m vals).map Prod.fst = some (((L &&& 0xFFF) <<< 16) ||| M)) := by
  have key := traceToken_fst b hb L M s t m vals hn
  refine ⟨key, fun hM => ?_⟩
  rw [key, Nat.mod_eq_of_lt (token_lt L M hM)]

theorem token_is_line_and_module_witness :
    backend exampleTokenBuild = .TokenizedBinary ∧ [1, 2, 3].length ≤ 3 ∧
    ((traceToken exampleTokenBuild 4097 7 (.str "DM") (.str "INFO") (.str "m") [1, 2, 3]).map
        Prod.fst = some ((((4097 &&& 0xFFF) <<< 16) ||| 7) % 2 ^ 32) ∧
     (7 < 2 ^ 32 →
      (traceToken exampleTokenBuild 4097 7 (.str "DM") (.str "INFO") (.str "m") [1, 2, 3]).map
        Prod.fst = some (((4097 &&& 0xFFF) <<< 16) ||| 7))) :=
  ⟨by decide, by decide,
    token_is_line_and_module exampleTokenBuild (by decide) 4097 7 _ _ _ [1, 2, 3] (by decide)⟩

/-- C2, as stated, fails: with no bound on the module id, two different
(line, module id) pairs with lines below 4096 get the same token, so no
decoder returns both.  Line 1 with module id `0x10000` and line 1 with module
id 0 both give `0x10000`. -/
theorem token_roundtrip_unbounded_module_fails :
    (1 : Nat) < 4096 ∧
    ((1 : Nat), (0x10000 : Nat)) ≠ ((1 : Nat), (0 : Nat)) ∧
    (traceToken exampleTokenBuild 1 0x10000 (.str "DM") (.str "INFO") (.str "m") []).map Prod.fst
      = some 0x10000 ∧
    (traceToken exampleTokenBuild 1 0 (.str "DM") (.str "INFO") (.str "m") []).map Prod.fst
      = some 0x10000 := by
  refine ⟨by decide, by decide, ?_, ?_⟩ <;>
    rw [traceToken_zero exampleTokenBuild (by decide)] <;> decide

/-- C2, amended: for every line below 4096 and every module id below 2^16,
the token that `WSF_TRACE0` to `WSF_TRACE3` pass decodes back to the pair:
its bits 16 and up are the line, its low 16 bits the module id.  Hence the
encoding is injective on that domain. -/
theorem token_roundtrip (b : Build) (hb : backend b = .TokenizedBinary)
    (L M : Nat) (hL : L < 4096) (hM : M < 2 ^ 16)
    (s t m : CExpr) (vals : List Nat) (hn : vals.length ≤ 3) :
    (∃ tok, (traceToken b L M s t m vals).map Prod.fst = some tok ∧
      tok >>> 16 = L ∧ tok &&& 0xFFFF = M) ∧
    (∀ L' M' : Nat, L' < 4096 → M' < 2 ^ 16 →
      (traceToken b L' M' s t m vals).map Prod.fst = (traceToken b L M s t m vals).map Prod.fst →
      L' = L ∧ M' = M) := by
  have key : ∀ L M : Nat, L < 4096 → M < 2 ^ 16 →
      (traceToken b L M s t m vals).map Prod.fst = some (L * 65536 + M) := by
    intro L M hL hM
    rw [traceToken_fst b hb L M s t m vals hn,
      token_eq_of_lt L M hL (by omega), Nat.mod_eq_of_lt (by omega)]
  refine ⟨⟨L * 65536 + M, key L M hL hM, ?_, ?_⟩, ?_⟩
  · rw [Nat.shiftRight_eq_div_pow]; omega
  · rw [mask16]; omega
  · intro L' M' hL' hM' h
    rw [key L M hL hM, key L' M' hL' hM'] at h
    have := Option.some.inj h
    omega

theorem token_roundtrip_witness :
    backend exampleTokenBuild = .TokenizedBinary ∧ (4095 : Nat) < 4096 ∧ (0xFFFF : Nat) < 2 ^ 16 ∧
    [1, 2].length ≤ 3 ∧
    ((∃ tok,
        (traceToken exampleTokenBuild 4095 0xFFFF (.str "DM") (.str "INFO") (.str "m") [1, 2]).map
          Prod.fst = some tok ∧ tok >>> 16 = 4095 ∧ tok &&& 0xFFFF = 0xFFFF) ∧
     (∀ L' M' : Nat, L' < 4096 → M' < 2 ^ 16 →
        (traceToken exampleTokenBuild L' M' (.str "DM") (.str "INFO") (.str "m") [1, 2]).map
            Prod.fst
          = (traceToken exampleTokenBuild 4095 0xFFFF (.str "DM") (.str "INFO") (.str "m")
              [1, 2]).map Prod.fst →
        L' = 4095 ∧ M' = 0xFFFF)) :=
  ⟨by decide, by decide, by decide, by decide,
    token_roundtrip exampleTokenBuild (by decide) 4095 0xFFFF (by decide) (by decide) _ _ _ [1, 2]
      (by decide)⟩

/-- C3: line truncation is masking.  For every line `L` and module id `M`,
the call built for `(L, M)` is the call built for `(L mod 4096, M)`, and every
line gives a call: none is rejected. -/
theorem line_truncation_is_masking (b : Build) (hb : backend b = .TokenizedBinary)
    (L M : Nat) (s t m : CExpr) (vals : List Nat) (hn : vals.length ≤ 3) :
    traceToken b L M s t m vals = traceToken b (L % 4096) M s t m vals ∧
    (traceToken b L M s t m vals).isSome = true := by
  have hmask : (L % 4096) &&& 0xFFF = L &&& 0xFFF := by rw [mask12, mask12]; omega
  obtain _ | ⟨a, _ | ⟨c, _ | ⟨d, _ | ⟨e, r⟩⟩⟩⟩ := vals
  · rw [traceToken_zero b hb, traceToken_zero b hb, hmask]; simp
  · rw [traceToken_one b hb, traceToken_one b hb, hmask]; simp
  · rw [traceToken_two b hb, traceToken_two b hb, hmask]; simp
  · rw [traceToken_three b hb, traceToken_three b hb, hmask]; simp
  · simp at hn

theorem line_truncation_is_masking_witness :
    backend exampleTokenBuild = .TokenizedBinary ∧ [5].length ≤ 3 ∧
    (traceToken exampleTokenBuild 4097 7 (.str "DM") (.str "INFO") (.str "m") [5]
        = traceToken exampleTokenBuild (4097 % 4096) 7 (.str "DM") (.str "INFO") (.str "m") [5] ∧
     (traceToken exampleTokenBuild 4097 7 (.str "DM") (.str "INFO") (.str "m") [5]).isSome
        = true) :=
  ⟨by decide, by decide,
    line_truncation_is_masking exampleTokenBuild (by decide) 4097 7 _ _ _ [5] (by decide)⟩

/-- C4: in a Tokenized-Binary build the second argument of `WsfToken` is, for
all argument values, `var1` reduced to 32 bits for `WSF_TRACE1`, the low 32
bits of `(var2 << 16) | (var1 & 0xFFFF)` for `WSF_TRACE2`, and
`((var3 & 0xFFFF) << 16) | ((var2 & 0xFF) << 8) | (var1 & 0xFF)` for
`WSF_TRACE3`. -/
theorem packed_argument_layout (b : Build) (hb : backend b = .TokenizedBinary)
    (L M : Nat) (s t m : CExpr) (v1 v2 v3 : Nat) :
    (traceToken b L M s t m [v1]).map Prod.snd = some (v1 % 2 ^ 32) ∧
    (traceToken b L M s t m [v1, v2]).map Prod.snd
      = some (((v2 <<< 16) ||| (v1 &&& 0xFFFF)) % 2 ^ 32) ∧
    (traceToken b L M s t m [v1, v2, v3]).map Prod.snd
      = some ((((v3 &&& 0xFFFF) <<< 16) ||| ((v2 &&& 0xFF) <<< 8)) ||| (v1 &&& 0xFF)) := by
  refine ⟨?_, ?_, ?_⟩
  · rw [traceToken_one b hb]; simp
  · rw [traceToken_two b hb]; simp
  · rw [traceToken_three b hb, pack3_eq]
    simp only [Option.map_some', Nat.mod_mod]
    rw [Nat.mod_eq_of_lt (by omega)]

theorem packed_argument_layout_witness :
    backend exampleTokenBuild = .TokenizedBinary ∧
    ((traceToken exampleTokenBuild 10 7 (.str "DM") (.str "INFO") (.str "m")
        [0x123456789]).map Prod.snd = some (0x123456789 % 2 ^ 32) ∧
     (traceToken exampleTokenBuild 10 7 (.str "DM") (.str "INFO") (.str "m")
        [0x123456789, 0xABCDE]).map Prod.snd
        = some (((0xABCDE <<< 16) ||| (0x123456789 &&& 0xFFFF)) % 2 ^ 32) ∧
     (traceToken exampleTokenBuild 10 7 (.str "DM") (.str "INFO") (.str "m")
        [0x123456789, 0xABCDE, 0x54321]).map Prod.snd
        = some ((((0x54321 &&& 0xFFFF) <<< 16) ||| ((0xABCDE &&& 0xFF) <<< 8))
            ||| (0x123456789 &&& 0xFF))) :=
  ⟨by decide,
    packed_argument_layout exampleTokenBuild (by decide) 10 7 _ _ _ 0x123456789 0xABCDE 0x54321⟩

/-- C5: for `var1 < 2^16` and `var2 < 2^16`, `WSF_TRACE2` packs a word `w`
with `w & 0xFFFF = var1` and `w >> 16 = var2`. -/
theorem pack2_roundtrip (b : Build) (hb : backend b = .TokenizedBinary)
    (L M : Nat) (s t m : CExpr) (v1 v2 : Nat) (h1 : v1 < 2 ^ 16) (h2 : v2 < 2 ^ 16) :
    ∃ w, (traceToken b L M s t m [v1, v2]).map Prod.snd = some w ∧
      w &&& 0xFFFF = v1 ∧ w >>> 16 = v2 := by
  refine ⟨v2 * 65536 + v1, ?_, ?_, ?_⟩
  · rw [traceToken_two b hb, pack2_eq]
    simp only [Option.map_some', Nat.mod_mod]
    congr 1; omega
  · rw [mask16]; omega
  · rw [Nat.shiftRight_eq_div_pow]; omega

theorem pack2_roundtrip_witness :
    backend exampleTokenBuild = .TokenizedBinary ∧
    ((0xFFFF : Nat) < 2 ^ 16 ∧ (0 : Nat) < 2 ^ 16) ∧
    (∃ w, (traceToken exampleTokenBuild 10 7 (.str "DM") (.str "INFO") (.str "m")
        [0xFFFF, 0]).map Prod.snd = some w ∧ w &&& 0xFFFF = 0xFFFF ∧ w >>> 16 = 0) ∧
    (∃ w, (traceToken exampleTokenBuild 10 7 (.str "DM") (.str "INFO") (.str "m")
        [0, 0xFFFF]).map Prod.snd = some w ∧ w &&& 0xFFFF = 0 ∧ w >>> 16 = 0xFFFF) :=
  ⟨by decide, ⟨by decide, by decide⟩,
    pack2_roundtrip exampleTokenBuild (by decide) 10 7 _ _ _ 0xFFFF 0 (by decide) (by decide),
    pack2_roundtrip exampleTokenBuild (by decide) 10 7 _ _ _ 0 0xFFFF (by decide) (by decide)⟩

/-- C6: for `var1 < 2^8`, `var2 < 2^8` and `var3 < 2^16`, `WSF_TRACE3` packs a
word `w` with `w & 0xFF = var1`, `(w >> 8) & 0xFF = var2` and `w >> 16 = var3`.
The fields do not overlap: `w` is the sum of the three fields placed at bits 0,
8 and 16. -/
theorem pack3_roundtrip (b : Build) (hb : backend b = .TokenizedBinary)
    (L M : Nat) (s t m : CExpr) (v1 v2 v3 : Nat)
    (h1 : v1 < 2 ^ 8) (h2 : v2 < 2 ^ 8) (h3 : v3 < 2 ^ 16) :
    ∃ w, (traceToken b L M s t m [v1, v2, v3]).map Prod.snd = some w ∧
      w &&& 0xFF = v1 ∧ (w >>> 8) &&& 0xFF = v2 ∧ w >>> 16 = v3 ∧
      w = v1 + v2 * 2 ^ 8 + v3 * 2 ^ 16 := by
  refine ⟨v3 * 65536 + v2 * 256 + v1, ?_, ?_, ?_, ?_, ?_⟩
  · rw [traceToken_three b hb, pack3_eq]
    simp only [Option.map_some', Nat.mod_mod]
    congr 1; omega
  · rw [mask8]; omega
  · rw [mask8, Nat.shiftRight_eq_div_pow]; omega
  · rw [Nat.shiftRight_eq_div_pow]; omega
  · omega

theorem pack3_roundtrip_witness :
    backend exampleTokenBuild = .TokenizedBinary ∧
    ((0xFF : Nat) < 2 ^ 8 ∧ (0 : Nat) < 2 ^ 8 ∧ (0xFFFF : Nat) < 2 ^ 16) ∧
    (∃ w, (traceToken exampleTokenBuild 10 7 (.str "DM") (.str "INFO") (.str "m")
        [0xFF, 0, 0xFFFF]).map Prod.snd = some w ∧
      w &&& 0xFF = 0xFF ∧ (w >>> 8) &&& 0xFF = 0 ∧ w >>> 16 = 0xFFFF ∧
      w = 0xFF + 0 * 2 ^ 8 + 0xFFFF * 2 ^ 16) :=
  ⟨by decide, ⟨by decide, by decide, by decide⟩,
    pack3_roundtrip exampleTokenBuild (by decide) 10 7 _ _ _ 0xFF 0 0xFFFF
      (by decide) (by decide) (by decide)⟩

/-- C7: argument truncation is silent.  For all argument values `WSF_TRACE2`
makes the same call for `(var1, var2)` as for `(var1 mod 2^16, var2 mod 2^16)`,
and `WSF_TRACE3` the same call for `(var1, var2, var3)` as for
`(var1 mod 2^8, var2 mod 2^8, var3 mod 2^16)`; both calls are made.  So the
value max+1 in a field gives the call that 0 in that field gives, whatever the
other fields hold. -/
theorem argument_truncation_is_silent (b : Build) (hb : backend b = .TokenizedBinary)
    (L M : Nat) (s t m : CExpr) (v1 v2 v3 : Nat) :
    (traceToken b L M s t m [v1, v2] = traceToken b L M s t m [v1 % 2 ^ 16, v2 % 2 ^ 16] ∧
      (traceToken b L M s t m [v1, v2]).isSome = true) ∧
    (traceToken b L M s t m [v1, v2, v3]
        = traceToken b L M s t m [v1 % 2 ^ 8, v2 % 2 ^ 8, v3 % 2 ^ 16] ∧
      (traceToken b L M s t m [v1, v2, v3]).isSome = true) ∧
    (traceToken b L M s t m [2 ^ 16, v2] = traceToken b L M s t m [0, v2] ∧
      traceToken b L M s t m [v1, 2 ^ 16] = traceToken b L M s t m [v1, 0]) ∧
    (traceToken b L M s t m [2 ^ 8, v2, v3] = traceToken b L M s t m [0, v2, v3] ∧
      traceToken b L M s t m [v1, 2 ^ 8, v3] = traceToken b L M s t m [v1, 0, v3] ∧
      traceToken b L M s t m [v1, v2, 2 ^ 16] = traceToken b L M s t m [v1, v2, 0]) := by
  have two : ∀ a c a' c' : Nat, a % 65536 = a' % 65536 → c % 65536 = c' % 65536 →
      traceToken b L M s t m [a, c] = traceToken b L M s t m [a', c'] := by
    intro a c a' c' ha hc
    have e : (c * 65536 + a % 65536) % 2 ^ 32 = (c' * 65536 + a' % 65536) % 2 ^ 32 := by omega
    rw [traceToken_two b hb, traceToken_two b hb, pack2_eq, pack2_eq, e]
  have three : ∀ a c d a' c' d' : Nat, a % 256 = a' % 256 → c % 256 = c' % 256 →
      d % 65536 = d' % 65536 →
      traceToken b L M s t m [a, c, d] = traceToken b L M s t m [a', c', d'] := by
    intro a c d a' c' d' ha hc hd
    rw [traceToken_three b hb, traceToken_three b hb, pack3_eq, pack3_eq, ha, hc, hd]
  refine ⟨⟨two _ _ _ _ (by omega) (by omega), ?_⟩, ⟨three _ _ _ _ _ _ (by omega) (by omega) (by omega), ?_⟩,
    ⟨two _ _ _ _ (by omega) rfl, two _ _ _ _ rfl (by omega)⟩,
    ⟨three _ _ _ _ _ _ (by omega) rfl rfl, three _ _ _ _ _ _ rfl (by omega) rfl,
      three _ _ _ _ _ _ rfl rfl (by omega)⟩⟩
  · rw [traceToken_two b hb]; rfl
  · rw [traceToken_three b hb]; rfl

theorem argument_truncation_is_silent_witness :
    backend exampleTokenBuild = .TokenizedBinary ∧
    ((traceToken exampleTokenBuild 10 7 (.str "DM") (.str "INFO") (.str "m") [0x10001, 0x10002]
        = traceToken exampleTokenBuild 10 7 (.str "DM") (.str "INFO") (.str "m")
            [0x10001 % 2 ^ 16, 0x10002 % 2 ^ 16] ∧
      (traceToken exampleTokenBuild 10 7 (.str "DM") (.str "INFO") (.str "m")
        [0x10001, 0x10002]).isSome = true) ∧
    (traceToken exampleTokenBuild 10 7 (.str "DM") (.str "INFO") (.str "m")
        [0x10001, 0x10002, 0x10003]
        = traceToken exampleTokenBuild 10 7 (.str "DM") (.str "INFO") (.str "m")
            [0x10001 % 2 ^ 8, 0x10002 % 2 ^ 8, 0x10003 % 2 ^ 16] ∧
      (traceToken exampleTokenBuild 10 7 (.str "DM") (.str "INFO") (.str "m")
        [0x10001, 0x10002, 0x10003]).isSome = true) ∧
    (traceToken exampleTokenBuild 10 7 (.str "DM") (.str "INFO") (.str "m") [2 ^ 16, 0x10002]
        = traceToken exampleTokenBuild 10 7 (.str "DM") (.str "INFO") (.str "m") [0, 0x10002] ∧
      traceToken exampleTokenBuild 10 7 (.str "DM") (.str "INFO") (.str "m") [0x10001, 2 ^ 16]
        = traceToken exampleTokenBuild 10 7 (.str "DM") (.str "INFO") (.str "m") [0x10001, 0]) ∧
    (traceToken exampleTokenBuild 10 7 (.str "DM") (.str "INFO") (.str "m")
        [2 ^ 8, 0x10002, 0x10003]
        = traceToken exampleTokenBuild 10 7 (.str "DM") (.str "INFO") (.str "m")
            [0, 0x10002, 0x10003] ∧
      traceToken exampleTokenBuild 10 7 (.str "DM") (.str "INFO") (.str "m")
        [0x10001, 2 ^ 8, 0x10003]
        = traceToken exampleTokenBuild 10 7 (.str "DM") (.str "INFO") (.str "m")
            [0x10001, 0, 0x10003] ∧
      traceToken exampleTokenBuild 10 7 (.str "DM") (.str "INFO") (.str "m")
        [0x10001, 0x10002, 2 ^ 16]
        = traceToken exampleTokenBuild 10 7 (.str "DM") (.str "INFO") (.str "m")
            [0x10001, 0x10002, 0])) :=
  ⟨by decide,
    argument_truncation_is_silent exampleTokenBuild (by decide) 10 7 _ _ _
      0x10001 0x10002 0x10003⟩

/-! ## Backend selection (C8-C10) -/

/-- In the disabled group a dispatch macro of a defined arity expands to nothing. -/
theorem invoke_dispatch_disabled (b : Build) (hb : backend b = .Disabled) (n : Nat)
    (hn : n ∈ dispatchArities) (args : List CExpr) (hlen : args.length = n + 3) :
    invoke b (.WSF_TRACE n) args = some .empty ∧ invoke b (.WSF_TRACEV n) args = some .empty := by
  simp [invoke, expand, expandStep, macroDef, hb, block, disabledBlock, hn,
    length_dispatchParams, hlen, Body.subst]

/-- In the disabled group every per-subsystem macro expands to nothing. -/
theorem invoke_subsys_disabled (b : Build) (hb : backend b = .Disabled) (s : Subsys) (v : Sev)
    (n : Nat) (h : (subsysDef s v n).isSome = true) (args : List CExpr)
    (hlen : args.length = n + 1) :
    invoke b (.TRACE s v n) args = some .empty := by
  unfold subsysDef at h
  cases hr : route s v with
  | none => simp [hr] at h
  | some r =>
    simp only [hr] at h
    by_cases hn : n ∈ subsysArities s v
    · have hd := subsysArities_sub s v n hn
      have e : n + 3 = 2 + (n + 1) := by omega
      cases r <;>
        simp [invoke, expand, expandStep, macroDef, subsysDef, hr, hn, hd, hb, block,
          disabledBlock, length_subsysParams, length_dispatchParams, length_msgAndVars,
          length_subsysTags, hlen, Body.subst, e]
    · simp [hn] at h

/-- C8: with `TOKEN_GENERATION` undefined and `WSF_TOKEN_ENABLED`,
`WSF_TRACE_ENABLED` left at their `FALSE` default (where `TRUE` and `FALSE`
differ), the build processes the disabled group, and every dispatch macro
`WSF_TRACEn`, `WSF_TRACEnV`, every per-subsystem macro, every `HCI_PDUMP`
macro and `LL_TRACE_ENABLE` expand to nothing, whatever
`WSF_TRACE_ENABLED_VERBOSE` is. -/
theorem default_is_disabled (b : Build) (hg : b.TOKEN_GENERATION = false)
    (htrace : b.WSF_TRACE_ENABLED = none) (htoken : b.WSF_TOKEN_ENABLED = none)
    (hTF : b.TRUE ≠ b.FALSE) :
    backend b = .Disabled ∧
    (∀ n ∈ dispatchArities, ∀ args : List CExpr, args.length = n + 3 →
      invoke b (.WSF_TRACE n) args = some .empty ∧
      invoke b (.WSF_TRACEV n) args = some .empty) ∧
    (∀ (s : Subsys) (v : Sev) (n : Nat), (subsysDef s v n).isSome = true →
      ∀ args : List CExpr, args.length = n + 1 →
        invoke b (.TRACE s v n) args = some .empty) ∧
    (∀ (k : Pdump) (len pBuf : CExpr), invoke b (.HCI_PDUMP k) [len, pBuf] = some .empty) ∧
    (∀ ena : CExpr, invoke b .LL_TRACE_ENABLE [ena] = some .empty) := by
  have h1 : b.tokenEnabled ≠ b.TRUE := by
    simp [Build.tokenEnabled, htoken]; exact fun h => hTF h.symm
  have h2 : b.traceEnabled ≠ b.TRUE := by
    simp [Build.traceEnabled, htrace]; exact fun h => hTF h.symm
  have hb : backend b = .Disabled := (backend_disabled_iff b).2 ⟨hg, h1, h2⟩
  refine ⟨hb, fun n hn args hlen => invoke_dispatch_disabled b hb n hn args hlen,
    fun s v n h args hlen => invoke_subsys_disabled b hb s v n h args hlen, ?_, ?_⟩
  · intro k len pBuf
    simp [invoke, expand, expandStep, macroDef, Body.subst]
  · intro ena
    simp [invoke, expand, expandStep, macroDef, llTraceEnableDef, h1, h2, Body.subst]

theorem default_is_disabled_witness :
    exampleDefaultBuild.TOKEN_GENERATION = false ∧
    exampleDefaultBuild.WSF_TRACE_ENABLED = none ∧
    exampleDefaultBuild.WSF_TOKEN_ENABLED = none ∧
    exampleDefaultBuild.TRUE ≠ exampleDefaultBuild.FALSE ∧
    (backend exampleDefaultBuild = .Disabled ∧
    (∀ n ∈ dispatchArities, ∀ args : List CExpr, args.length = n + 3 →
      invoke exampleDefaultBuild (.WSF_TRACE n) args = some .empty ∧
      invoke exampleDefaultBuild (.WSF_TRACEV n) args = some .empty) ∧
    (∀ (s : Subsys) (v : Sev) (n : Nat), (subsysDef s v n).isSome = true →
      ∀ args : List CExpr, args.length = n + 1 →
        invoke exampleDefaultBuild (.TRACE s v n) args = some .empty) ∧
    (∀ (k : Pdump) (len pBuf : CExpr),
      invoke exampleDefaultBuild (.HCI_PDUMP k) [len, pBuf] = some .empty) ∧
    (∀ ena : CExpr, invoke exampleDefaultBuild .LL_TRACE_ENABLE [ena] = some .empty)) :=
  ⟨rfl, rfl, rfl, by decide, default_is_disabled exampleDefaultBuild rfl rfl rfl (by decide)⟩

/-- The four groups define `WSF_TRACE0` differently. -/
theorem block_WSF_TRACE0_injective (b : Build) (g g' : Backend)
    (h : block b g (.WSF_TRACE 0) = block b g' (.WSF_TRACE 0)) : g = g' := by
  cases g <;> cases g' <;>
    simp [block, generationBlock, tokenBlock, formattedBlock, disabledBlock, dispatchArities] at h
      <;> rfl

/-- C9: in every build the definitions of `WSF_TRACE0` to `WSF_TRACE3` are
those of exactly one of the four groups Generation, Tokenized-Binary,
Formatted-Text, Disabled; and when `TOKEN_GENERATION` is defined they are the
`WSF_TOKEN(subsys, stat, msg)` definition, whose invocation expands to the
metadata record `__WSF_TOKEN_DEFINE__(MODULE_ID, __LINE__, __FILE__, subsys,
stat, msg)`, whatever the two enable flags are. -/
theorem exactly_one_backend (b : Build) :
    (∃! g : Backend, ∀ n, n < 4 → macroDef b (.WSF_TRACE n) = block b g (.WSF_TRACE n)) ∧
    (b.TOKEN_GENERATION = true →
      ∀ n, n < 4 →
        macroDef b (.WSF_TRACE n)
          = some ⟨dispatchParams n,
              .call (.mac .WSF_TOKEN) [.param .subsys, .param .stat, .param .msg]⟩ ∧
        ∀ (s t m : CExpr) (vals : List CExpr), vals.length = n →
          invoke b (.WSF_TRACE n) (s :: t :: m :: vals)
            = some (.call .WSF_TOKEN_DEFINE [.MODULE_ID, .LINE, .FILE, s, t, m])) := by
  refine ⟨⟨backend b, fun n _ => rfl, fun g hg => ?_⟩, fun hgen n hn => ?_⟩
  · exact block_WSF_TRACE0_injective b g (backend b) (hg 0 (by decide)).symm
  · have hb : backend b = .Generation := (backend_generation_iff b).2 hgen
    refine ⟨by simp [macroDef, hb, block, generationBlock, hn], fun s t m vals hlen => ?_⟩
    simp [invoke, expand, expandStep, macroDef, hb, block, generationBlock, hn,
      length_dispatchParams, length_varParams, hlen, Body.subst, CExpr.subst, bind, dispatchParams]

theorem exactly_one_backend_witness :
    exampleGenerationBuild.TOKEN_GENERATION = true ∧ (3 : Nat) < 4 ∧
    [CExpr.lit 1, CExpr.lit 2, CExpr.lit 3].length = 3 ∧
    invoke exampleGenerationBuild (.WSF_TRACE 3)
        [.str "DM", .str "INFO", .str "m", .lit 1, .lit 2, .lit 3]
      = some (.call .WSF_TOKEN_DEFINE
          [.MODULE_ID, .LINE, .FILE, .str "DM", .str "INFO", .str "m"]) :=
  ⟨rfl, by decide, rfl,
    ((exactly_one_backend exampleGenerationBuild).2 rfl 3 (by decide)).2 _ _ _ _ rfl⟩

/-- C10, as stated, fails: a build that sets both `WSF_TOKEN_ENABLED` and
`WSF_TRACE_ENABLED` to `TRUE` is not rejected.  It gets the
Tokenized-Binary definitions of `WSF_TRACE0` to `WSF_TRACE3`, and a call
site yields a `WsfToken` call. -/
theorem two_backends_requested_not_rejected :
    exampleBothBuild.tokenEnabled = exampleBothBuild.TRUE ∧
    exampleBothBuild.traceEnabled = exampleBothBuild.TRUE ∧
    backend exampleBothBuild = .TokenizedBinary ∧
    (macroDef exampleBothBuild (.WSF_TRACE 0)).isSome = true ∧
    (macroDef exampleBothBuild (.WSF_TRACE 1)).isSome = true ∧
    (macroDef exampleBothBuild (.WSF_TRACE 2)).isSome = true ∧
    (macroDef exampleBothBuild (.WSF_TRACE 3)).isSome = true ∧
    traceToken exampleBothBuild 10 7 (.str "DM") (.str "INFO") (.str "m") [1, 2, 3]
      = some (0xA0007, 0x30201) := by
  refine ⟨by decide, by decide, by decide, by decide, by decide, by decide, by decide, ?_⟩
  rw [traceToken_three exampleBothBuild (by decide)]; decide

/-- C10, amended: when two backends are requested at once the chain does not
fail; it resolves by priority.  `WSF_TRACE0` to `WSF_TRACE3` are defined, from
the Generation group when `TOKEN_GENERATION` is defined, and otherwise (both
enable flags `TRUE`) from the Tokenized-Binary group. -/
theorem two_backends_resolve_by_priority (b : Build)
    (hreq : (b.TOKEN_GENERATION = true ∧ (b.tokenEnabled = b.TRUE ∨ b.traceEnabled = b.TRUE)) ∨
      (b.tokenEnabled = b.TRUE ∧ b.traceEnabled = b.TRUE)) :
    (∀ n, n < 4 → (macroDef b (.WSF_TRACE n)).isSome = true) ∧
    (b.TOKEN_GENERATION = true → backend b = .Generation ∧
      ∀ n, n < 4 → macroDef b (.WSF_TRACE n) = generationBlock (.WSF_TRACE n)) ∧
    (b.TOKEN_GENERATION = false → backend b = .TokenizedBinary ∧
      ∀ n, n < 4 → macroDef b (.WSF_TRACE n) = tokenBlock (.WSF_TRACE n)) := by
  have hgen : b.TOKEN_GENERATION = true → backend b = .Generation :=
    (backend_generation_iff b).2
  have htok : b.TOKEN_GENERATION = false → backend b = .TokenizedBinary := by
    intro hg
    rcases hreq with ⟨h, _⟩ | ⟨h, _⟩
    · rw [hg] at h; exact absurd h (by decide)
    · exact (backend_tokenized_iff b).2 ⟨hg, h⟩
  refine ⟨fun n hn => ?_, fun hg => ⟨hgen hg, fun n _ => by simp [macroDef, hgen hg, block]⟩,
    fun hg => ⟨htok hg, fun n _ => by simp [macroDef, htok hg, block]⟩⟩
  cases hg : b.TOKEN_GENERATION
  · have : n = 0 ∨ n = 1 ∨ n = 2 ∨ n = 3 := by omega
    rcases this with h | h | h | h <;> subst h <;> simp [macroDef, htok hg, block, tokenBlock]
  · simp [macroDef, hgen hg, block, generationBlock, hn]

theorem two_backends_resolve_by_priority_witness :
    ((exampleBothBuild.TOKEN_GENERATION = true ∧
        (exampleBothBuild.tokenEnabled = exampleBothBuild.TRUE ∨
          exampleBothBuild.traceEnabled = exampleBothBuild.TRUE)) ∨
      (exampleBothBuild.tokenEnabled = exampleBothBuild.TRUE ∧
        exampleBothBuild.traceEnabled = exampleBothBuild.TRUE)) ∧
    backend exampleBothBuild = .TokenizedBinary ∧
    (∀ n, n < 4 → (macroDef exampleBothBuild (.WSF_TRACE n)).isSome = true) :=
  ⟨Or.inr ⟨by decide, by decide⟩,
    ((two_backends_resolve_by_priority exampleBothBuild (Or.inr ⟨by decide, by decide⟩)).2.2
      rfl).1,
    (two_backends_resolve_by_priority exampleBothBuild (Or.inr ⟨by decide, by decide⟩)).1⟩

/-! ## Substitution of arguments for parameters -/

theorem nodup_varParams (n : Nat) : (varParams n).Nodup := by
  unfold varParams
  exact List.Nodup.map (fun i j h => by simpa using h) (List.nodup_range n)

theorem nodup_subsysParams (n : Nat) : (subsysParams n).Nodup :=
  List.nodup_cons.2 ⟨by simp [varParams], nodup_varParams n⟩

theorem nodup_dispatchParams (n : Nat) : (dispatchParams n).Nodup :=
  List.nodup_cons.2 ⟨by simp [varParams],
    List.nodup_cons.2 ⟨by simp [varParams], nodup_subsysParams n⟩⟩

/-- With distinct parameters, each parameter is bound to the argument in the
same position. -/
theorem map_bind_self (ps : List Param) (as : List CExpr) (hnd : ps.Nodup)
    (hlen : ps.length = as.length) :
    ps.map (fun p => (CExpr.param p).subst (bind ps as)) = as := by
  induction ps generalizing as with
  | nil => cases as with
    | nil => rfl
    | cons a as => simp at hlen
  | cons p ps ih =>
    cases as with
    | nil => simp at hlen
    | cons a as =>
      have hp : p ∉ ps := (List.nodup_cons.1 hnd).1
      have hrest : ps.map (fun q => (CExpr.param q).subst (bind (p :: ps) (a :: as)))
          = ps.map (fun q => (CExpr.param q).subst (bind ps as)) := by
        apply List.map_congr_left
        intro q hq
        have hne : p ≠ q := fun h => hp (h ▸ hq)
        simp [CExpr.subst, bind, hne]
      simp only [List.map_cons, hrest, ih as (List.nodup_cons.1 hnd).2 (by simpa using hlen)]
      simp [CExpr.subst, bind]

/-- The arguments `msg, var1, ..., varn` of a per-subsystem macro, after the
call-site arguments are substituted. -/
theorem subst_msgAndVars_subsys (n : Nat) (m : CExpr) (vals : List CExpr)
    (hlen : vals.length = n) :
    (msgAndVars n).map (CExpr.subst (bind (subsysParams n) (m :: vals))) = m :: vals := by
  have h := map_bind_self (subsysParams n) (m :: vals) (nodup_subsysParams n)
    (by simp [length_subsysParams, hlen])
  simpa [msgAndVars, subsysParams, List.map_map, Function.comp] using h

/-- The arguments `msg, var1, ..., varn` of a dispatch macro, after the
call-site arguments are substituted. -/
theorem subst_msgAndVars_dispatch (n : Nat) (s t m : CExpr) (vals : List CExpr)
    (hlen : vals.length = n) :
    (msgAndVars n).map (CExpr.subst (bind (dispatchParams n) (s :: t :: m :: vals)))
      = m :: vals := by
  have h := map_bind_self (dispatchParams n) (s :: t :: m :: vals) (nodup_dispatchParams n)
    (by simp [length_dispatchParams, hlen])
  have h2 := congrArg (List.drop 2) h
  simpa [msgAndVars, dispatchParams, List.map_map, Function.comp] using h2

/-- The leading tags of a per-subsystem macro contain no parameter. -/
theorem subst_subsysTags (s : Subsys) (v : Sev) (n : Nat) (σ : Param → Option CExpr) :
    (subsysTags s v n).map (CExpr.subst σ) = subsysTags s v n := by
  unfold subsysTags; split <;> simp [CExpr.subst]

/-! ## Expansion in steps -/

theorem expandStep_mac (b : Build) (m : MacroName) (args : List CExpr) (d : MacroDef)
    (hd : macroDef b m = some d) (hlen : d.params.length = args.length) :
    expandStep b (.call (.mac m) args) = some (d.body.subst (bind d.params args)) := by
  simp [expandStep, hd, hlen]

theorem expandStep_undefined (b : Build) (m : MacroName) (args : List CExpr)
    (hd : macroDef b m = none) :
    expandStep b (.call (.mac m) args) = some (.call (.mac m) args) := by
  simp [expandStep, hd]

theorem expand_one (b : Build) (body r : Body) (h1 : expandStep b body = some r)
    (hr : expandStep b r = some r) : expand b body = some r := by
  simp [expand, h1, hr]

theorem expand_two (b : Build) (body b1 r : Body) (h1 : expandStep b body = some b1)
    (h2 : expandStep b b1 = some r) (hr : expandStep b r = some r) :
    expand b body = some r := by
  simp [expand, h1, h2, hr]

theorem backend_formatted_iff (b : Build) :
    backend b = .FormattedText ↔
      b.TOKEN_GENERATION = false ∧ b.tokenEnabled ≠ b.TRUE ∧ b.traceEnabled = b.TRUE := by
  simp only [backend, dispatchChain, dispatchElse, takeGroup, Cond.holds]
  cases b.TOKEN_GENERATION <;> by_cases h1 : b.tokenEnabled = b.TRUE <;>
    by_cases h2 : b.traceEnabled = b.TRUE <;> simp [h1, h2]

/-! ## Per-subsystem macros, first rescan -/

theorem subsysDef_of_route (s : Subsys) (v : Sev) (n : Nat) (r : Route)
    (hr : route s v = some r) (hn : n ∈ subsysArities s v) :
    subsysDef s v n = some ⟨subsysParams n,
        match r with
        | .silent => .empty
        | .plain => .call (.mac (.WSF_TRACE n)) (subsysTags s v n ++ msgAndVars n)
        | .verbose => .call (.mac (.WSF_TRACEV n)) (subsysTags s v n ++ msgAndVars n)⟩ := by
  cases r <;> simp [subsysDef, hr, hn]

/-- A per-subsystem macro exists exactly when its family has a route and the
arity is one of the family. -/
theorem subsysDef_isSome_iff (s : Subsys) (v : Sev) (n : Nat) :
    (subsysDef s v n).isSome = true ↔ ∃ r, route s v = some r ∧ n ∈ subsysArities s v := by
  unfold subsysDef
  cases hr : route s v with
  | none => simp
  | some r => by_cases hn : n ∈ subsysArities s v <;> simp [hn]

theorem step_subsys_silent (b : Build) (s : Subsys) (v : Sev) (n : Nat)
    (hr : route s v = some .silent) (hn : n ∈ subsysArities s v)
    (m : CExpr) (vals : List CExpr) (hlen : vals.length = n) :
    expandStep b (.call (.mac (.TRACE s v n)) (m :: vals)) = some .empty := by
  rw [expandStep_mac b _ _ _ (by simpa [macroDef] using subsysDef_of_route s v n _ hr hn)
    (by simp [length_subsysParams, hlen])]
  rfl

theorem step_subsys_plain (b : Build) (s : Subsys) (v : Sev) (n : Nat)
    (hr : route s v = some .plain) (hn : n ∈ subsysArities s v)
    (m : CExpr) (vals : List CExpr) (hlen : vals.length = n) :
    expandStep b (.call (.mac (.TRACE s v n)) (m :: vals))
      = some (.call (.mac (.WSF_TRACE n)) (subsysTags s v n ++ m :: vals)) := by
  rw [expandStep_mac b _ _ _ (by simpa [macroDef] using subsysDef_of_route s v n _ hr hn)
    (by simp [length_subsysParams, hlen])]
  simp only [Body.subst, List.map_append, subst_subsysTags,
    subst_msgAndVars_subsys n m vals hlen]

theorem step_subsys_verbose (b : Build) (s : Subsys) (v : Sev) (n : Nat)
    (hr : route s v = some .verbose) (hn : n ∈ subsysArities s v)
    (m : CExpr) (vals : List CExpr) (hlen : vals.length = n) :
    expandStep b (.call (.mac (.TRACE s v n)) (m :: vals))
      = some (.call (.mac (.WSF_TRACEV n)) (subsysTags s v n ++ m :: vals)) := by
  rw [expandStep_mac b _ _ _ (by simpa [macroDef] using subsysDef_of_route s v n _ hr hn)
    (by simp [length_subsysParams, hlen])]
  simp only [Body.subst, List.map_append, subst_subsysTags,
    subst_msgAndVars_subsys n m vals hlen]

/-- The two tags followed by the message and the values, as a dispatch
argument list. -/
theorem subsysTags_cons (s : Subsys) (v : Sev) (n : Nat) (rest : List CExpr) :
    ∃ t1 t2, subsysTags s v n ++ rest = t1 :: t2 :: rest := by
  unfold subsysTags; split <;> exact ⟨_, _, rfl⟩

/-- A step of the dispatch macro `WSF_TRACEn` in the formatted group. -/
theorem step_dispatch_formatted (b : Build) (hb : backend b = .FormattedText) (n : Nat)
    (hn : n ∈ dispatchArities) (s t m : CExpr) (vals : List CExpr) (hlen : vals.length = n) :
    expandStep b (.call (.mac (.WSF_TRACE n)) (s :: t :: m :: vals))
      = some (.call .WsfTrace (m :: vals)) := by
  rw [expandStep_mac b _ _ ⟨dispatchParams n, .call .WsfTrace (msgAndVars n)⟩
    (by simp [macroDef, hb, block, formattedBlock, hn])
    (by simp [length_dispatchParams, hlen])]
  simp only [Body.subst, subst_msgAndVars_dispatch n s t m vals hlen]

theorem step_dispatchV_formatted_on (b : Build) (hb : backend b = .FormattedText)
    (hv : b.verboseEnabled = b.TRUE) (n : Nat)
    (hn : n ∈ dispatchArities) (s t m : CExpr) (vals : List CExpr) (hlen : vals.length = n) :
    expandStep b (.call (.mac (.WSF_TRACEV n)) (s :: t :: m :: vals))
      = some (.call .WsfTraceVerbose (m :: vals)) := by
  rw [expandStep_mac b _ _ ⟨dispatchParams n, .call .WsfTraceVerbose (msgAndVars n)⟩
    (by simp [macroDef, hb, block, formattedBlock, hn, hv])
    (by simp [length_dispatchParams, hlen])]
  simp only [Body.subst, subst_msgAndVars_dispatch n s t m vals hlen]

theorem step_dispatchV_formatted_off (b : Build) (hb : backend b = .FormattedText)
    (hv : b.verboseEnabled ≠ b.TRUE) (n : Nat)
    (hn : n ∈ dispatchArities) (s t m : CExpr) (vals : List CExpr) (hlen : vals.length = n) :
    expandStep b (.call (.mac (.WSF_TRACEV n)) (s :: t :: m :: vals)) = some .empty := by
  rw [expandStep_mac b _ _ ⟨dispatchParams n, .empty⟩
    (by simp [macroDef, hb, block, formattedBlock, hn, hv])
    (by simp [length_dispatchParams, hlen])]
  rfl

/-! ## Per-subsystem macros, full expansion -/

theorem invoke_subsys_silent (b : Build) (s : Subsys) (v : Sev) (n : Nat)
    (hr : route s v = some .silent) (hn : n ∈ subsysArities s v)
    (m : CExpr) (vals : List CExpr) (hlen : vals.length = n) :
    invoke b (.TRACE s v n) (m :: vals) = some .empty :=
  expand_one b _ _ (step_subsys_silent b s v n hr hn m vals hlen) rfl

theorem invoke_subsys_plain_formatted (b : Build) (hb : backend b = .FormattedText)
    (s : Subsys) (v : Sev) (n : Nat)
    (hr : route s v = some .plain) (hn : n ∈ subsysArities s v)
    (m : CExpr) (vals : List CExpr) (hlen : vals.length = n) :
    invoke b (.TRACE s v n) (m :: vals) = some (.call .WsfTrace (m :: vals)) := by
  obtain ⟨t1, t2, ht⟩ := subsysTags_cons s v n (m :: vals)
  refine expand_two b _ _ _ (step_subsys_plain b s v n hr hn m vals hlen) ?_ rfl
  rw [ht]
  exact step_dispatch_formatted b hb n (subsysArities_sub s v n hn) t1 t2 m vals hlen

theorem invoke_subsys_verbose_formatted_on (b : Build) (hb : backend b = .FormattedText)
    (hv : b.verboseEnabled = b.TRUE) (s : Subsys) (v : Sev) (n : Nat)
    (hr : route s v = some .verbose) (hn : n ∈ subsysArities s v)
    (m : CExpr) (vals : List CExpr) (hlen : vals.length = n) :
    invoke b (.TRACE s v n) (m :: vals) = some (.call .WsfTraceVerbose (m :: vals)) := by
  obtain ⟨t1, t2, ht⟩ := subsysTags_cons s v n (m :: vals)
  refine expand_two b _ _ _ (step_subsys_verbose b s v n hr hn m vals hlen) ?_ rfl
  rw [ht]
  exact step_dispatchV_formatted_on b hb hv n (subsysArities_sub s v n hn) t1 t2 m vals hlen

theorem invoke_subsys_verbose_formatted_off (b : Build) (hb : backend b = .FormattedText)
    (hv : b.verboseEnabled ≠ b.TRUE) (s : Subsys) (v : Sev) (n : Nat)
    (hr : route s v = some .verbose) (hn : n ∈ subsysArities s v)
    (m : CExpr) (vals : List CExpr) (hlen : vals.length = n) :
    invoke b (.TRACE s v n) (m :: vals) = some .empty := by
  obtain ⟨t1, t2, ht⟩ := subsysTags_cons s v n (m :: vals)
  refine expand_two b _ _ _ (step_subsys_verbose b s v n hr hn m vals hlen) ?_ rfl
  rw [ht]
  exact step_dispatchV_formatted_off b hb hv n (subsysArities_sub s v n hn) t1 t2 m vals hlen

/-! ## Dispatch macros of the formatted group, full expansion -/

theorem invoke_dispatch_formatted (b : Build) (hb : backend b = .FormattedText) (n : Nat)
    (hn : n ∈ dispatchArities) (s t m : CExpr) (vals : List CExpr) (hlen : vals.length = n) :
    invoke b (.WSF_TRACE n) (s :: t :: m :: vals) = some (.call .WsfTrace (m :: vals)) :=
  expand_one b _ _ (step_dispatch_formatted b hb n hn s t m vals hlen) rfl

theorem invoke_dispatchV_formatted_on (b : Build) (hb : backend b = .FormattedText)
    (hv : b.verboseEnabled = b.TRUE) (n : Nat)
    (hn : n ∈ dispatchArities) (s t m : CExpr) (vals : List CExpr) (hlen : vals.length = n) :
    invoke b (.WSF_TRACEV n) (s :: t :: m :: vals)
      = some (.call .WsfTraceVerbose (m :: vals)) :=
  expand_one b _ _ (step_dispatchV_formatted_on b hb hv n hn s t m vals hlen) rfl

theorem invoke_dispatchV_formatted_off (b : Build) (hb : backend b = .FormattedText)
    (hv : b.verboseEnabled ≠ b.TRUE) (n : Nat)
    (hn : n ∈ dispatchArities) (s t m : CExpr) (vals : List CExpr) (hlen : vals.length = n) :
    invoke b (.WSF_TRACEV n) (s :: t :: m :: vals) = some .empty :=
  expand_one b _ _ (step_dispatchV_formatted_off b hb hv n hn s t m vals hlen) rfl

/-! ## Dispatch macros of the tokenized group -/

/-- In the tokenized group `WSF_TRACEn`, `n ≤ 3`, becomes a `WsfToken` call
whose operands do not mention the subsystem, the severity or the message. -/
theorem step_dispatch_token (b : Build) (hb : backend b = .TokenizedBinary)
    (vals : List CExpr) (hn : vals.length ≤ 3) :
    ∃ arg, ∀ s t m : CExpr,
      expandStep b (.call (.mac (.WSF_TRACE vals.length)) (s :: t :: m :: vals))
        = some (.call .WsfToken [tokenExpr, arg]) := by
  obtain _ | ⟨a, _ | ⟨c, _ | ⟨d, _ | ⟨e, r⟩⟩⟩⟩ := vals
  · exact ⟨.lit 0, fun s t m => by
      simp [expandStep, macroDef, hb, block, tokenBlock, dispatchParams,
        varParams, Body.subst, CExpr.subst, tokenExpr]⟩
  · exact ⟨.castU32 a, fun s t m => by
      simp [expandStep, macroDef, hb, block, tokenBlock, dispatchParams,
        varParams, Body.subst, CExpr.subst, tokenExpr, packed1, bind, List.range,
        List.range.loop]⟩
  · exact ⟨.castU32 (.bor (.shl c (.lit 16)) (.band a (.lit 0xFFFF))), fun s t m => by
      simp [expandStep, macroDef, hb, block, tokenBlock, dispatchParams,
        varParams, Body.subst, CExpr.subst, tokenExpr, packed2, bind, List.range,
        List.range.loop]⟩
  · exact ⟨.castU32 (.bor (.bor (.shl (.band d (.lit 0xFFFF)) (.lit 16))
        (.shl (.band c (.lit 0xFF)) (.lit 8))) (.band a (.lit 0xFF))), fun s t m => by
      simp [expandStep, macroDef, hb, block, tokenBlock, dispatchParams,
        varParams, Body.subst, CExpr.subst, tokenExpr, packed3, bind, List.range,
        List.range.loop]⟩
  · simp at hn

theorem invoke_dispatch_token (b : Build) (hb : backend b = .TokenizedBinary)
    (vals : List CExpr) (hn : vals.length ≤ 3) :
    ∃ arg, ∀ s t m : CExpr,
      invoke b (.WSF_TRACE vals.length) (s :: t :: m :: vals)
        = some (.call .WsfToken [tokenExpr, arg]) := by
  obtain ⟨arg, h⟩ := step_dispatch_token b hb vals hn
  exact ⟨arg, fun s t m => expand_one b _ _ (h s t m) rfl⟩

theorem invoke_subsys_plain_token (b : Build) (hb : backend b = .TokenizedBinary)
    (s : Subsys) (v : Sev) (n : Nat)
    (hr : route s v = some .plain) (hn : n ∈ subsysArities s v) (h3 : n ≤ 3)
    (m : CExpr) (vals : List CExpr) (hlen : vals.length = n) :
    ∃ arg, invoke b (.TRACE s v n) (m :: vals) = some (.call .WsfToken [tokenExpr, arg]) := by
  obtain ⟨t1, t2, ht⟩ := subsysTags_cons s v n (m :: vals)
  subst hlen
  obtain ⟨arg, h⟩ := step_dispatch_token b hb vals h3
  refine ⟨arg, expand_two b _ _ _ (step_subsys_plain b s v _ hr hn m vals rfl) ?_ rfl⟩
  rw [ht]
  exact h t1 t2 m

/-! ## Routes of the per-subsystem families -/

/-- Every family is silent, or goes through `WSF_TRACEn` and belongs to one
of seven subsystems, or goes through `WSF_TRACEnV` and belongs to one of the
six others. -/
theorem route_tier (s : Subsys) (v : Sev) (r : Route) (h : route s v = some r) :
    r = .silent ∨
    (r = .plain ∧ s ∈ [Subsys.WSF, .DM, .EATT, .SMP, .APP, .MESH, .MMDL]) ∨
    (r = .verbose ∧ s ∈ [Subsys.HCI, .L2C, .ATT, .LL, .BBP, .AUD]) := by
  cases s <;> cases v <;> simp [route] at h <;> subst h <;> simp

/-- Warning and error families: through `WSF_TRACEnV` for the six
verbose-gated subsystems, through `WSF_TRACEn` for the others. -/
theorem route_warn_err (s : Subsys) (v : Sev) (hv : v = .WARN ∨ v = .ERR) :
    (s ∈ [Subsys.HCI, .L2C, .ATT, .LL, .BBP, .AUD] → route s v = some .verbose) ∧
    (s ∉ [Subsys.HCI, .L2C, .ATT, .LL, .BBP, .AUD] → route s v = some .plain) := by
  rcases hv with hv | hv <;> subst hv <;> cases s <;> simp [route]

theorem subsysArities_warn_err (s : Subsys) (v : Sev) (hv : v = .WARN ∨ v = .ERR) (n : Nat) :
    n ∈ subsysArities s v ↔ n ≤ 3 := by
  have h : ¬ (s = .APP ∧ v = .INFO) := by rcases hv with hv | hv <;> subst hv <;> simp
  simp only [subsysArities, h, if_false, List.mem_cons, List.mem_singleton, List.not_mem_nil,
    or_false]
  omega

theorem mem_dispatchArities_iff (n : Nat) : n ∈ dispatchArities ↔ n ≤ 9 ∨ n = 12 := by
  simp only [dispatchArities, List.mem_cons, List.mem_singleton, List.not_mem_nil, or_false]
  omega

/-! ## Per-subsystem macros and the verbose gate (C11-C16) -/

/-- C11, as stated, fails: in a Formatted-Text build, which is not Disabled,
the existing macros `WSF_TRACE_INFO0` and, with the verbose flag off,
`HCI_TRACE_INFO0` resolve to nothing instead of one call. -/
theorem subsys_macro_empty_in_formatted_build :
    backend exampleFormattedBuild = .FormattedText ∧
    (subsysDef .WSF .INFO 0).isSome = true ∧
    invoke exampleFormattedBuild (.TRACE .WSF .INFO 0) [.str "m"] = some .empty ∧
    (subsysDef .HCI .INFO 0).isSome = true ∧
    invoke exampleFormattedBuild (.TRACE .HCI .INFO 0) [.str "m"] = some .empty := by
  refine ⟨by decide, by decide, ?_, by decide, ?_⟩
  · exact invoke_subsys_silent _ .WSF .INFO 0 rfl (by decide) _ [] rfl
  · exact invoke_subsys_verbose_formatted_off _ (by decide) (by decide) .HCI .INFO 0 rfl
      (by decide) _ [] rfl

/-- C11, amended: an existing per-subsystem macro resolves, by substitution
alone, as its definition style says.  Defined with an empty replacement list
it resolves to nothing in every build.  Under Disabled it resolves to nothing.
Defined through `WSF_TRACEn` it resolves to the one call
`WsfTrace(msg, var1, ..., varn)` in a Formatted-Text build and, for `n ≤ 3`, to
one `WsfToken` call in a Tokenized-Binary build.  Defined through
`WSF_TRACEnV` it resolves in a Formatted-Text build to the one call
`WsfTraceVerbose(msg, var1, ..., varn)` when `WSF_TRACE_ENABLED_VERBOSE` is
`TRUE` and to nothing otherwise. -/
theorem subsys_macro_resolution (b : Build) (s : Subsys) (v : Sev) (n : Nat)
    (hdef : (subsysDef s v n).isSome = true) (m : CExpr) (vals : List CExpr)
    (hlen : vals.length = n) :
    (route s v = some .silent → invoke b (.TRACE s v n) (m :: vals) = some .empty) ∧
    (backend b = .Disabled → invoke b (.TRACE s v n) (m :: vals) = some .empty) ∧
    (backend b = .FormattedText → route s v = some .plain →
      invoke b (.TRACE s v n) (m :: vals) = some (.call .WsfTrace (m :: vals))) ∧
    (backend b = .FormattedText → route s v = some .verbose → b.verboseEnabled = b.TRUE →
      invoke b (.TRACE s v n) (m :: vals) = some (.call .WsfTraceVerbose (m :: vals))) ∧
    (backend b = .FormattedText → route s v = some .verbose → b.verboseEnabled ≠ b.TRUE →
      invoke b (.TRACE s v n) (m :: vals) = some .empty) ∧
    (backend b = .TokenizedBinary → route s v = some .plain → n ≤ 3 →
      ∃ arg, invoke b (.TRACE s v n) (m :: vals) = some (.call .WsfToken [tokenExpr, arg])) := by
  obtain ⟨r, _, hn⟩ := (subsysDef_isSome_iff s v n).1 hdef
  refine ⟨fun hr => invoke_subsys_silent b s v n hr hn m vals hlen,
    fun hb => invoke_subsys_disabled b hb s v n hdef (m :: vals) (by simp [hlen]),
    fun hb hr => invoke_subsys_plain_formatted b hb s v n hr hn m vals hlen,
    fun hb hr hv => invoke_subsys_verbose_formatted_on b hb hv s v n hr hn m vals hlen,
    fun hb hr hv => invoke_subsys_verbose_formatted_off b hb hv s v n hr hn m vals hlen,
    fun hb hr h3 => invoke_subsys_plain_token b hb s v n hr hn h3 m vals hlen⟩

theorem subsys_macro_resolution_witness :
    (subsysDef .DM .INFO 2).isSome = true ∧ [CExpr.lit 5, CExpr.lit 6].length = 2 ∧
    invoke exampleFormattedBuild (.TRACE .DM .INFO 2) [.str "m", .lit 5, .lit 6]
      = some (.call .WsfTrace [.str "m", .lit 5, .lit 6]) ∧
    (∃ arg, invoke exampleTokenBuild (.TRACE .DM .INFO 2) [.str "m", .lit 5, .lit 6]
      = some (.call .WsfToken [tokenExpr, arg])) :=
  ⟨by decide, rfl,
    (subsys_macro_resolution exampleFormattedBuild .DM .INFO 2 (by decide) (.str "m")
      [.lit 5, .lit 6] rfl).2.2.1 (by decide) rfl,
    (subsys_macro_resolution exampleTokenBuild .DM .INFO 2 (by decide) (.str "m")
      [.lit 5, .lit 6] rfl).2.2.2.2.2 (by decide) rfl (by decide)⟩

/-- C12: in a Formatted-Text build, for `n` in 0..9 and 12,
`WSF_TRACEnV(subsys, stat, msg, var1, ..., varn)` expands to nothing when
`WSF_TRACE_ENABLED_VERBOSE` is not `TRUE` and to
`WsfTraceVerbose(msg, var1, ..., varn)` when it is; `WSF_TRACEn` expands to
`WsfTrace(msg, var1, ..., varn)` either way, and its definition is the same in
every Formatted-Text build. -/
theorem verbose_gate (b : Build) (hb : backend b = .FormattedText) (n : Nat)
    (hn : n ≤ 9 ∨ n = 12) (s t m : CExpr) (vals : List CExpr) (hlen : vals.length = n) :
    (b.verboseEnabled ≠ b.TRUE →
      invoke b (.WSF_TRACEV n) (s :: t :: m :: vals) = some .empty) ∧
    (b.verboseEnabled = b.TRUE →
      invoke b (.WSF_TRACEV n) (s :: t :: m :: vals)
        = some (.call .WsfTraceVerbose (m :: vals))) ∧
    invoke b (.WSF_TRACE n) (s :: t :: m :: vals) = some (.call .WsfTrace (m :: vals)) ∧
    (∀ b' : Build, backend b' = .FormattedText →
      macroDef b' (.WSF_TRACE n) = macroDef b (.WSF_TRACE n)) := by
  have hd := (mem_dispatchArities_iff n).2 hn
  refine ⟨fun hv => invoke_dispatchV_formatted_off b hb hv n hd s t m vals hlen,
    fun hv => invoke_dispatchV_formatted_on b hb hv n hd s t m vals hlen,
    invoke_dispatch_formatted b hb n hd s t m vals hlen, fun b' hb' => ?_⟩
  simp [macroDef, hb, hb', block, formattedBlock]

theorem verbose_gate_witness :
    backend exampleVerboseBuild = .FormattedText ∧ ((12 : Nat) ≤ 9 ∨ (12 : Nat) = 12) ∧
    ((List.range 12).map CExpr.lit).length = 12 ∧
    invoke exampleVerboseBuild (.WSF_TRACEV 12)
        (.str "LL" :: .str "INFO" :: .str "m" :: (List.range 12).map CExpr.lit)
      = some (.call .WsfTraceVerbose (.str "m" :: (List.range 12).map CExpr.lit)) ∧
    invoke exampleVerboseBuild (.WSF_TRACE 12)
        (.str "LL" :: .str "INFO" :: .str "m" :: (List.range 12).map CExpr.lit)
      = some (.call .WsfTrace (.str "m" :: (List.range 12).map CExpr.lit)) :=
  ⟨by decide, Or.inr rfl, rfl,
    (verbose_gate exampleVerboseBuild (by decide) 12 (Or.inr rfl) (.str "LL") (.str "INFO")
      (.str "m") ((List.range 12).map CExpr.lit) rfl).2.1 (by decide),
    (verbose_gate exampleVerboseBuild (by decide) 12 (Or.inr rfl) (.str "LL") (.str "INFO")
      (.str "m") ((List.range 12).map CExpr.lit) rfl).2.2.1⟩

/-- C13, as stated, fails: in a Formatted-Text build with the verbose flag
off, the warning macro `HCI_TRACE_WARN0` and the error macro `LL_TRACE_ERR3`
resolve to nothing. -/
theorem verbose_off_silences_warn_err :
    backend exampleFormattedBuild = .FormattedText ∧
    exampleFormattedBuild.verboseEnabled ≠ exampleFormattedBuild.TRUE ∧
    (subsysDef .HCI .WARN 0).isSome = true ∧
    invoke exampleFormattedBuild (.TRACE .HCI .WARN 0) [.str "m"] = some .empty ∧
    (subsysDef .LL .ERR 3).isSome = true ∧
    invoke exampleFormattedBuild (.TRACE .LL .ERR 3) [.str "m", .lit 1, .lit 2, .lit 3]
      = some .empty := by
  refine ⟨by decide, by decide, by decide, ?_, by decide, ?_⟩
  · exact invoke_subsys_verbose_formatted_off _ (by decide) (by decide) .HCI .WARN 0 rfl
      (by decide) _ [] rfl
  · exact invoke_subsys_verbose_formatted_off _ (by decide) (by decide) .LL .ERR 3 rfl
      (by decide) _ [_, _, _] rfl

/-- C13, amended: in a Formatted-Text build with the verbose flag off, every
warning and error macro (arities 0 to 3) exists; those of WSF, DM, EATT, SMP,
APP, MESH and MMDL resolve to `WsfTrace(msg, var1, ..., varn)`, and those of
HCI, L2C, ATT, LL, BBP and AUD resolve to nothing, as the info macros of these
six do. -/
theorem warn_err_with_verbose_off (b : Build) (hb : backend b = .FormattedText)
    (hv : b.verboseEnabled ≠ b.TRUE) (s : Subsys) (v : Sev) (hsev : v = .WARN ∨ v = .ERR)
    (n : Nat) (hn : n ≤ 3) (m : CExpr) (vals : List CExpr) (hlen : vals.length = n) :
    (subsysDef s v n).isSome = true ∧
    (s ∉ [Subsys.HCI, .L2C, .ATT, .LL, .BBP, .AUD] →
      invoke b (.TRACE s v n) (m :: vals) = some (.call .WsfTrace (m :: vals))) ∧
    (s ∈ [Subsys.HCI, .L2C, .ATT, .LL, .BBP, .AUD] →
      invoke b (.TRACE s v n) (m :: vals) = some .empty ∧
      invoke b (.TRACE s .INFO n) (m :: vals) = some .empty) := by
  have ha : n ∈ subsysArities s v := (subsysArities_warn_err s v hsev n).2 hn
  have hr := route_warn_err s v hsev
  refine ⟨?_, fun hs => ?_, fun hs => ⟨?_, ?_⟩⟩
  · by_cases hs : s ∈ [Subsys.HCI, .L2C, .ATT, .LL, .BBP, .AUD]
    · exact (subsysDef_isSome_iff s v n).2 ⟨_, hr.1 hs, ha⟩
    · exact (subsysDef_isSome_iff s v n).2 ⟨_, hr.2 hs, ha⟩
  · exact invoke_subsys_plain_formatted b hb s v n (hr.2 hs) ha m vals hlen
  · exact invoke_subsys_verbose_formatted_off b hb hv s v n (hr.1 hs) ha m vals hlen
  · have hi : route s .INFO = some .verbose := by
      simp only [List.mem_cons, List.mem_singleton, List.not_mem_nil, or_false] at hs
      rcases hs with h | h | h | h | h | h <;> subst h <;> rfl
    have hai : n ∈ subsysArities s .INFO := by
      have hne : s ≠ .APP := by
        simp only [List.mem_cons, List.mem_singleton, List.not_mem_nil, or_false] at hs
        rcases hs with h | h | h | h | h | h <;> subst h <;> decide
      simp only [subsysArities, hne, false_and, if_false, List.mem_cons, List.mem_singleton,
        List.not_mem_nil, or_false]
      omega
    exact invoke_subsys_verbose_formatted_off b hb hv s .INFO n hi hai m vals hlen

theorem warn_err_with_verbose_off_witness :
    backend exampleFormattedBuild = .FormattedText ∧
    exampleFormattedBuild.verboseEnabled ≠ exampleFormattedBuild.TRUE ∧
    (Sev.WARN = .WARN ∨ Sev.WARN = .ERR) ∧ (1 : Nat) ≤ 3 ∧ [CExpr.lit 5].length = 1 ∧
    invoke exampleFormattedBuild (.TRACE .DM .WARN 1) [.str "m", .lit 5]
      = some (.call .WsfTrace [.str "m", .lit 5]) ∧
    invoke exampleFormattedBuild (.TRACE .HCI .WARN 1) [.str "m", .lit 5] = some .empty :=
  ⟨by decide, by decide, Or.inl rfl, by decide, rfl,
    (warn_err_with_verbose_off exampleFormattedBuild (by decide) (by decide) .DM .WARN
      (Or.inl rfl) 1 (by decide) (.str "m") [.lit 5] rfl).2.1 (by decide),
    ((warn_err_with_verbose_off exampleFormattedBuild (by decide) (by decide) .HCI .WARN
      (Or.inl rfl) 1 (by decide) (.str "m") [.lit 5] rfl).2.2 (by decide)).1⟩

/-- C14: routing is per subsystem.  The replacement list of every existing
per-subsystem macro is empty, or a call of `WSF_TRACEn` in a macro of WSF, DM,
EATT, SMP, APP, MESH or MMDL, or a call of `WSF_TRACEnV` in a macro of HCI,
L2C, ATT, LL, BBP or AUD.  The two groups share no subsystem, so no subsystem
has one macro through `WSF_TRACEn` and another through `WSF_TRACEnV`, whatever
the severities and arities. -/
theorem two_tier_routing_per_subsystem (s : Subsys) (v : Sev) (n : Nat) (d : MacroDef)
    (h : subsysDef s v n = some d) :
    (d.body = .empty ∨
      (s ∈ [Subsys.WSF, .DM, .EATT, .SMP, .APP, .MESH, .MMDL] ∧
        d.body = .call (.mac (.WSF_TRACE n)) (subsysTags s v n ++ msgAndVars n)) ∨
      (s ∈ [Subsys.HCI, .L2C, .ATT, .LL, .BBP, .AUD] ∧
        d.body = .call (.mac (.WSF_TRACEV n)) (subsysTags s v n ++ msgAndVars n))) ∧
    (s ∈ [Subsys.WSF, .DM, .EATT, .SMP, .APP, .MESH, .MMDL] ↔
      s ∉ [Subsys.HCI, .L2C, .ATT, .LL, .BBP, .AUD]) ∧
    (∀ (v' : Sev) (n' : Nat) (d' : MacroDef), subsysDef s v' n' = some d' →
      ∀ a a' : List CExpr,
        ¬ (d.body = .call (.mac (.WSF_TRACE n)) a ∧
            d'.body = .call (.mac (.WSF_TRACEV n')) a')) := by
  have classify : ∀ (v : Sev) (n : Nat) (d : MacroDef), subsysDef s v n = some d →
      d.body = .empty ∨
      (s ∈ [Subsys.WSF, .DM, .EATT, .SMP, .APP, .MESH, .MMDL] ∧
        d.body = .call (.mac (.WSF_TRACE n)) (subsysTags s v n ++ msgAndVars n)) ∨
      (s ∈ [Subsys.HCI, .L2C, .ATT, .LL, .BBP, .AUD] ∧
        d.body = .call (.mac (.WSF_TRACEV n)) (subsysTags s v n ++ msgAndVars n)) := by
    intro v n d h
    obtain ⟨r, hr, hn⟩ := (subsysDef_isSome_iff s v n).1 (by rw [h]; rfl)
    rw [subsysDef_of_route s v n r hr hn] at h
    have hd := (Option.some.inj h).symm
    subst hd
    rcases route_tier s v r hr with h1 | ⟨h1, hs⟩ | ⟨h1, hs⟩ <;> subst h1
    · exact Or.inl rfl
    · exact Or.inr (Or.inl ⟨hs, rfl⟩)
    · exact Or.inr (Or.inr ⟨hs, rfl⟩)
  have disjoint : s ∈ [Subsys.WSF, .DM, .EATT, .SMP, .APP, .MESH, .MMDL] ↔
      s ∉ [Subsys.HCI, .L2C, .ATT, .LL, .BBP, .AUD] := by
    cases s <;> decide
  refine ⟨classify v n d h, disjoint, fun v' n' d' h' a a' ⟨e, e'⟩ => ?_⟩
  rcases classify v n d h with h1 | ⟨hs, _⟩ | ⟨_, h1⟩
  · rw [h1] at e; cases e
  · rcases classify v' n' d' h' with h2 | ⟨_, h2⟩ | ⟨hs', _⟩
    · rw [h2] at e'; cases e'
    · rw [h2] at e'; cases e'
    · exact disjoint.1 hs hs'
  · rw [h1] at e; cases e

theorem two_tier_routing_per_subsystem_witness :
    subsysDef .HCI .WARN 1
      = some ⟨subsysParams 1,
          .call (.mac (.WSF_TRACEV 1)) (subsysTags .HCI .WARN 1 ++ msgAndVars 1)⟩ ∧
    (∀ (v' : Sev) (n' : Nat) (d' : MacroDef), subsysDef .HCI v' n' = some d' →
      ∀ a a' : List CExpr,
        ¬ ((⟨subsysParams 1, .call (.mac (.WSF_TRACEV 1))
              (subsysTags .HCI .WARN 1 ++ msgAndVars 1)⟩ : MacroDef).body
              = .call (.mac (.WSF_TRACE 1)) a ∧
            d'.body = .call (.mac (.WSF_TRACEV n')) a')) :=
  ⟨rfl, (two_tier_routing_per_subsystem .HCI .WARN 1 _ rfl).2.2⟩

/-- C15: `LL_TRACE_ENABLE(ena)` resolves to `WsfTraceEnable(ena)`, argument
unchanged, in a Formatted-Text build and in a Tokenized-Binary build alike, in
fact whenever `WSF_TRACE_ENABLED` or `WSF_TOKEN_ENABLED` is `TRUE`; it resolves
to nothing exactly when neither is `TRUE`. -/
theorem ll_trace_enable_switch (b : Build) (ena : CExpr) :
    (backend b = .FormattedText ∨ backend b = .TokenizedBinary →
      invoke b .LL_TRACE_ENABLE [ena] = some (.call .WsfTraceEnable [ena])) ∧
    (b.traceEnabled = b.TRUE ∨ b.tokenEnabled = b.TRUE →
      invoke b .LL_TRACE_ENABLE [ena] = some (.call .WsfTraceEnable [ena])) ∧
    (invoke b .LL_TRACE_ENABLE [ena] = some .empty ↔
      b.traceEnabled ≠ b.TRUE ∧ b.tokenEnabled ≠ b.TRUE) := by
  have hOn : b.traceEnabled = b.TRUE ∨ b.tokenEnabled = b.TRUE →
      invoke b .LL_TRACE_ENABLE [ena] = some (.call .WsfTraceEnable [ena]) := by
    intro h
    have hc : (b.traceEnabled == b.TRUE || b.tokenEnabled == b.TRUE) = true := by
      rcases h with h | h <;> simp [h]
    simp [invoke, expand, expandStep, macroDef, llTraceEnableDef, hc, Body.subst, CExpr.subst,
      bind]
  have hOff : b.traceEnabled ≠ b.TRUE ∧ b.tokenEnabled ≠ b.TRUE →
      invoke b .LL_TRACE_ENABLE [ena] = some .empty := by
    intro ⟨h1, h2⟩
    simp [invoke, expand, expandStep, macroDef, llTraceEnableDef, h1, h2, Body.subst]
  refine ⟨fun hb => ?_, hOn, ⟨fun h => ?_, hOff⟩⟩
  · rcases hb with hb | hb
    · exact hOn (Or.inl ((backend_formatted_iff b).1 hb).2.2)
    · exact hOn (Or.inr ((backend_tokenized_iff b).1 hb).2)
  · by_contra hne
    have hor : b.traceEnabled = b.TRUE ∨ b.tokenEnabled = b.TRUE := by
      by_cases h1 : b.traceEnabled = b.TRUE
      · exact Or.inl h1
      · by_cases h2 : b.tokenEnabled = b.TRUE
        · exact Or.inr h2
        · exact absurd ⟨h1, h2⟩ hne
    rw [hOn hor] at h
    cases h

theorem ll_trace_enable_switch_witness :
    backend exampleFormattedBuild = .FormattedText ∧
    backend exampleTokenBuild = .TokenizedBinary ∧
    invoke exampleFormattedBuild .LL_TRACE_ENABLE [.ident "on"]
      = some (.call .WsfTraceEnable [.ident "on"]) ∧
    invoke exampleTokenBuild .LL_TRACE_ENABLE [.ident "on"]
      = some (.call .WsfTraceEnable [.ident "on"]) :=
  ⟨by decide, by decide,
    (ll_trace_enable_switch exampleFormattedBuild (.ident "on")).1 (Or.inl (by decide)),
    (ll_trace_enable_switch exampleTokenBuild (.ident "on")).1 (Or.inr (by decide))⟩

/-- C16, as stated, fails: the Formatted-Text group has no `WSF_TRACE10` and no
`WSF_TRACE11`, and the Tokenized-Binary group does define `WSF_TRACE0`. -/
theorem arities_not_as_stated :
    backend exampleFormattedBuild = .FormattedText ∧
    macroDef exampleFormattedBuild (.WSF_TRACE 10) = none ∧
    macroDef exampleFormattedBuild (.WSF_TRACE 11) = none ∧
    backend exampleTokenBuild = .TokenizedBinary ∧
    macroDef exampleTokenBuild (.WSF_TRACE 0)
      = some ⟨dispatchParams 0, .call .WsfToken [tokenExpr, .lit 0]⟩ := by
  refine ⟨by decide, ?_, ?_, by decide, ?_⟩
  · simp [macroDef, show backend exampleFormattedBuild = .FormattedText by decide, block,
      formattedBlock, dispatchArities]
  · simp [macroDef, show backend exampleFormattedBuild = .FormattedText by decide, block,
      formattedBlock, dispatchArities]
  · simp [macroDef, show backend exampleTokenBuild = .TokenizedBinary by decide, block,
      tokenBlock]

/-- C16, amended: the Formatted-Text group defines `WSF_TRACEn` exactly for
`n` from 0 to 9 and for 12; the Tokenized-Binary group defines `WSF_TRACEn`
exactly for `n` from 0 to 3. -/
theorem supported_arities (b : Build) (n : Nat) :
    (backend b = .FormattedText →
      ((macroDef b (.WSF_TRACE n)).isSome = true ↔ (n ≤ 9 ∨ n = 12))) ∧
    (backend b = .TokenizedBinary →
      ((macroDef b (.WSF_TRACE n)).isSome = true ↔ n ≤ 3)) := by
  refine ⟨fun hb => ?_, fun hb => ?_⟩
  · rw [← mem_dispatchArities_iff]
    by_cases hn : n ∈ dispatchArities <;> simp [macroDef, hb, block, formattedBlock, hn]
  · obtain _ | _ | _ | _ | k := n <;> simp [macroDef, hb, block, tokenBlock]

theorem supported_arities_witness :
    backend exampleFormattedBuild = .FormattedText ∧
    backend exampleTokenBuild = .TokenizedBinary ∧
    ((macroDef exampleFormattedBuild (.WSF_TRACE 12)).isSome = true ↔
      ((12 : Nat) ≤ 9 ∨ (12 : Nat) = 12)) ∧
    ((macroDef exampleTokenBuild (.WSF_TRACE 4)).isSome = true ↔ (4 : Nat) ≤ 3) :=
  ⟨by decide, by decide,
    (supported_arities exampleFormattedBuild 12).1 (by decide),
    (supported_arities exampleTokenBuild 4).2 (by decide)⟩

/-! ## Runtime switch, service and registration (C17-C19) -/

theorem evalArgs_lit (L M : Nat) (vals : List Nat) :
    evalArgs L M (vals.map CExpr.lit) = some vals := by
  induction vals with
  | nil => rfl
  | cons a as ih => simp [evalArgs, CExpr.eval, ih]

/-- With EnableState false the three emit functions leave the whole state,
the call records included, as it is. -/
theorem emit_disabled (st : Runtime) (h : st.enabled = false) (ev : TextEvent)
    (tok var : Nat) :
    st.WsfTrace ev = st ∧ st.WsfTraceVerbose ev = st ∧ st.WsfToken tok var = st := by
  simp [Runtime.WsfTrace, Runtime.WsfTraceVerbose, Runtime.WsfToken, h]

/-- C17, as stated, fails: in a Formatted-Text build the call site
`WSF_TRACE1("DM", "INFO", "m", 5)` is the call `WsfTrace("m", 5)`.  Executed
with EnableState false it leaves the state untouched, yet its arguments are
evaluated: the text does not depend on EnableState. -/
theorem disabled_call_site_evaluates_arguments :
    backend exampleFormattedBuild = .FormattedText ∧
    (Runtime.init 8).enabled = false ∧
    invoke exampleFormattedBuild (.WSF_TRACE 1) [.str "DM", .str "INFO", .str "m", .lit 5]
      = some (.call .WsfTrace [.str "m", .lit 5]) ∧
    (invoke exampleFormattedBuild (.WSF_TRACE 1)
        [.str "DM", .str "INFO", .str "m", .lit 5]).bind Body.evaluated
      = some [.str "m", .lit 5] ∧
    execSite exampleFormattedBuild 10 7 (Runtime.init 8) (.WSF_TRACE 1)
        [.str "DM", .str "INFO", .str "m", .lit 5]
      = some (Runtime.init 8) := by
  have h := invoke_dispatch_formatted exampleFormattedBuild (by decide) 1 (by decide)
    (.str "DM") (.str "INFO") (.str "m") [.lit 5] rfl
  refine ⟨by decide, rfl, h, ?_, ?_⟩
  · rw [h]; rfl
  · rw [execSite, h]; rfl

/-- C17, amended: with EnableState false, `WsfTrace`, `WsfTraceVerbose` and
`WsfToken` change nothing: no sink or handler invocation is recorded and
nothing is queued, so a call site leaves the state as it is.  EnableState is
false at start-up and no operation other than `WsfTraceEnable` changes it.
The call-site text does not test EnableState: a `WSF_TRACEn` call site of a
Formatted-Text build evaluates the message and all `n` arguments, one of a
Tokenized-Binary build (`n ≤ 3`) evaluates the two operands of `WsfToken`, and
only under Disabled is nothing evaluated. -/
theorem runtime_disabled_emission (b : Build) (st : Runtime) (h : st.enabled = false)
    (L M : Nat) (s t : CExpr) (f : String) (vals : List Nat) :
    (∀ (ev : TextEvent) (tok var : Nat),
      st.WsfTrace ev = st ∧ st.WsfTraceVerbose ev = st ∧ st.WsfToken tok var = st) ∧
    (∀ capacity : Nat, (Runtime.init capacity).enabled = false) ∧
    (∀ (st' : Runtime) (op : Op), (∀ e, op ≠ .enable e) → (st'.step op).enabled = st'.enabled) ∧
    (backend b = .FormattedText → (vals.length ≤ 9 ∨ vals.length = 12) →
      execSite b L M st (.WSF_TRACE vals.length) (s :: t :: .str f :: vals.map CExpr.lit)
        = some st ∧
      (invoke b (.WSF_TRACE vals.length) (s :: t :: .str f :: vals.map CExpr.lit)).bind
        Body.evaluated = some (.str f :: vals.map CExpr.lit)) ∧
    (backend b = .TokenizedBinary → vals.length ≤ 3 →
      execSite b L M st (.WSF_TRACE vals.length) (s :: t :: .str f :: vals.map CExpr.lit)
        = some st ∧
      ∃ arg, (invoke b (.WSF_TRACE vals.length) (s :: t :: .str f :: vals.map CExpr.lit)).bind
        Body.evaluated = some [tokenExpr, arg]) ∧
    (backend b = .Disabled → (vals.length ≤ 9 ∨ vals.length = 12) →
      execSite b L M st (.WSF_TRACE vals.length) (s :: t :: .str f :: vals.map CExpr.lit)
        = some st ∧
      (invoke b (.WSF_TRACE vals.length) (s :: t :: .str f :: vals.map CExpr.lit)).bind
        Body.evaluated = some []) := by
  refine ⟨fun ev tok var => emit_disabled st h ev tok var, fun _ => rfl, ?_, ?_, ?_, ?_⟩
  · intro st' op hop
    cases op with
    | enable e => exact absurd rfl (hop e)
    | trace ev => simp only [Runtime.step, Runtime.WsfTrace]; split <;> [split; skip] <;> rfl
    | traceVerbose ev =>
      simp only [Runtime.step, Runtime.WsfTraceVerbose, Runtime.WsfTrace]
      split <;> [split; skip] <;> rfl
    | token tok var => simp only [Runtime.step, Runtime.WsfToken]; split <;> [split; skip] <;> rfl
    | service accept => simp only [Runtime.step, Runtime.WsfTokenService]; split <;> rfl
    | register c => rfl
    | registerHandler c => rfl
  · intro hb hn
    have hinv := invoke_dispatch_formatted b hb _ ((mem_dispatchArities_iff _).2 hn) s t
      (.str f) (vals.map CExpr.lit) (by simp)
    constructor
    · rw [execSite, hinv]
      simp [execBody, evalArgs_lit, (emit_disabled st h ⟨f, vals⟩ 0 0).1]
    · rw [hinv]; rfl
  · intro hb hn
    have hn' : (vals.map CExpr.lit).length ≤ 3 := by simpa using hn
    obtain ⟨arg, hinv⟩ := invoke_dispatch_token b hb (vals.map CExpr.lit) hn'
    have hlen : (vals.map CExpr.lit).length = vals.length := by simp
    have htok := traceToken_fst b hb L M s t (.str f) vals hn
    rw [traceToken, ← hlen, hinv s t (.str f)] at htok
    constructor
    · rw [execSite, ← hlen, hinv s t (.str f)]
      simp only [Option.bind_eq_bind, Option.some_bind, wsfTokenArgs] at htok
      simp only [Option.bind_eq_bind, Option.some_bind, execBody]
      cases hx : tokenExpr.eval L M with
      | none => simp [hx] at htok
      | some x =>
        cases hy : arg.eval L M with
        | none => simp [hx, hy] at htok
        | some y => simp [(emit_disabled st h ⟨f, vals⟩ _ _).2.2]
    · refine ⟨arg, ?_⟩
      rw [← hlen, hinv s t (.str f)]; rfl
  · intro hb hn
    have hinv := (invoke_dispatch_disabled b hb _ ((mem_dispatchArities_iff _).2 hn)
      (s :: t :: .str f :: vals.map CExpr.lit) (by simp)).1
    constructor
    · rw [execSite, hinv]; rfl
    · rw [hinv]; rfl

theorem runtime_disabled_emission_witness :
    (Runtime.init 8).enabled = false ∧
    backend exampleFormattedBuild = .FormattedText ∧ ([5, 6].length ≤ 9 ∨ [5, 6].length = 12) ∧
    (Runtime.init 8).WsfTrace ⟨"m", [5, 6]⟩ = Runtime.init 8 ∧
    (execSite exampleFormattedBuild 10 7 (Runtime.init 8) (.WSF_TRACE [5, 6].length)
        (.str "DM" :: .str "INFO" :: .str "m" :: [5, 6].map CExpr.lit)
      = some (Runtime.init 8) ∧
     (invoke exampleFormattedBuild (.WSF_TRACE [5, 6].length)
        (.str "DM" :: .str "INFO" :: .str "m" :: [5, 6].map CExpr.lit)).bind Body.evaluated
      = some (.str "m" :: [5, 6].map CExpr.lit)) :=
  ⟨rfl, by decide, Or.inl (by decide),
    ((runtime_disabled_emission exampleFormattedBuild (Runtime.init 8) rfl 10 7 (.str "DM")
      (.str "INFO") "m" [5, 6]).1 ⟨"m", [5, 6]⟩ 0 0).1,
    (runtime_disabled_emission exampleFormattedBuild (Runtime.init 8) rfl 10 7 (.str "DM")
      (.str "INFO") "m" [5, 6]).2.2.2.1 (by decide) (Or.inl (by decide))⟩

/-- C18: `WsfTokenService` returns `TRUE` exactly when events are still
pending after the call; on an empty queue it returns `FALSE`, invokes no
handler and leaves the state as it is. -/
theorem token_service_result (st : Runtime) (accept : Nat) :
    ((st.WsfTokenService accept).2 = true ↔ (st.WsfTokenService accept).1.queue ≠ []) ∧
    (st.queue = [] →
      (st.WsfTokenService accept).2 = false ∧
      (st.WsfTokenService accept).1.handlerCalls = st.handlerCalls ∧
      (st.WsfTokenService accept).1 = st) := by
  constructor
  · unfold Runtime.WsfTokenService
    cases st.handler <;> simp [List.isEmpty_iff]
  · intro hq
    unfold Runtime.WsfTokenService
    cases hh : st.handler <;> simp [hq]
    cases st
    simp_all

theorem token_service_result_witness :
    (Runtime.init 8).queue = [] ∧
    (((Runtime.init 8).WsfTraceRegisterHandler 3).WsfTokenService 5).2 = false ∧
    (((Runtime.init 8).WsfTraceRegisterHandler 3).WsfTokenService 5).1.handlerCalls = [] :=
  ⟨rfl,
    ((token_service_result ((Runtime.init 8).WsfTraceRegisterHandler 3) 5).2 rfl).1,
    ((token_service_result ((Runtime.init 8).WsfTraceRegisterHandler 3) 5).2 rfl).2.1⟩

/-- While no text sink is registered anew, every recorded sink invocation
goes to the sink registered at the start. -/
theorem run_sink_calls (c : Nat) (ops : List Op) (hops : ∀ c', Op.register c' ∉ ops)
    (st : Runtime) (hs : st.sink = some c) :
    (st.run ops).sink = some c ∧
    ∃ added, (st.run ops).sinkCalls = st.sinkCalls ++ added ∧ ∀ e ∈ added, e.1 = c := by
  induction ops generalizing st with
  | nil => exact ⟨hs, [], by simp [Runtime.run], by simp⟩
  | cons op ops ih =>
    have hops' : ∀ c', Op.register c' ∉ ops := fun c' h => hops c' (List.mem_cons_of_mem _ h)
    have hstep : (st.step op).sink = some c ∧
        ∃ added, (st.step op).sinkCalls = st.sinkCalls ++ added ∧ ∀ e ∈ added, e.1 = c := by
      cases op with
      | enable e => exact ⟨hs, [], by simp [Runtime.step, Runtime.WsfTraceEnable], by simp⟩
      | trace ev =>
        by_cases he : st.enabled = true
        · exact ⟨by simp [Runtime.step, Runtime.WsfTrace, he, hs],
            [(c, ev)], by simp [Runtime.step, Runtime.WsfTrace, he, hs], by simp⟩
        · exact ⟨by simp [Runtime.step, Runtime.WsfTrace, he, hs],
            [], by simp [Runtime.step, Runtime.WsfTrace, he], by simp⟩
      | traceVerbose ev =>
        by_cases he : st.enabled = true
        · exact ⟨by simp [Runtime.step, Runtime.WsfTraceVerbose, Runtime.WsfTrace, he, hs],
            [(c, ev)], by simp [Runtime.step, Runtime.WsfTraceVerbose, Runtime.WsfTrace, he, hs],
            by simp⟩
        · exact ⟨by simp [Runtime.step, Runtime.WsfTraceVerbose, Runtime.WsfTrace, he, hs],
            [], by simp [Runtime.step, Runtime.WsfTraceVerbose, Runtime.WsfTrace, he], by simp⟩
      | token tok var =>
        refine ⟨?_, [], ?_, by simp⟩ <;>
          · simp only [Runtime.step, Runtime.WsfToken]
            split <;> [split; skip] <;> simp [hs]
      | service accept =>
        refine ⟨?_, [], ?_, by simp⟩ <;>
          · simp only [Runtime.step, Runtime.WsfTokenService]
            split <;> simp [hs]
      | register c' => exact absurd (List.mem_cons_self _ _) (hops c')
      | registerHandler h =>
        exact ⟨hs, [], by simp [Runtime.step, Runtime.WsfTraceRegisterHandler], by simp⟩
    obtain ⟨hs1, a1, e1, h1⟩ := hstep
    obtain ⟨hs2, a2, e2, h2⟩ := ih hops' (st.step op) hs1
    refine ⟨by simpa [Runtime.run] using hs2, a1 ++ a2, ?_, ?_⟩
    · have : (st.run (op :: ops)) = (st.step op).run ops := by simp [Runtime.run]
      rw [this, e2, e1, List.append_assoc]
    · intro e he
      rcases List.mem_append.1 he with h | h
      · exact h1 e h
      · exact h2 e h

/-- While no token handler is registered anew, every recorded handler
invocation goes to the handler registered at the start. -/
theorem run_handler_calls (c : Nat) (ops : List Op) (hops : ∀ c', Op.registerHandler c' ∉ ops)
    (st : Runtime) (hs : st.handler = some c) :
    (st.run ops).handler = some c ∧
    ∃ added, (st.run ops).handlerCalls = st.handlerCalls ++ added ∧ ∀ e ∈ added, e.1 = c := by
  induction ops generalizing st with
  | nil => exact ⟨hs, [], by simp [Runtime.run], by simp⟩
  | cons op ops ih =>
    have hops' : ∀ c', Op.registerHandler c' ∉ ops :=
      fun c' h => hops c' (List.mem_cons_of_mem _ h)
    have hstep : (st.step op).handler = some c ∧
        ∃ added, (st.step op).handlerCalls = st.handlerCalls ++ added ∧
          ∀ e ∈ added, e.1 = c := by
      cases op with
      | enable e => exact ⟨hs, [], by simp [Runtime.step, Runtime.WsfTraceEnable], by simp⟩
      | trace ev =>
        refine ⟨?_, [], ?_, by simp⟩ <;>
          · simp only [Runtime.step, Runtime.WsfTrace]
            split <;> [split; skip] <;> simp [hs]
      | traceVerbose ev =>
        refine ⟨?_, [], ?_, by simp⟩ <;>
          · simp only [Runtime.step, Runtime.WsfTraceVerbose, Runtime.WsfTrace]
            split <;> [split; skip] <;> simp [hs]
      | token tok var =>
        refine ⟨?_, [], ?_, by simp⟩ <;>
          · simp only [Runtime.step, Runtime.WsfToken]
            split <;> [split; skip] <;> simp [hs]
      | service accept =>
        refine ⟨by simp [Runtime.step, Runtime.WsfTokenService, hs],
          (st.queue.take accept).map fun e => (c, e),
          by simp [Runtime.step, Runtime.WsfTokenService, hs], ?_⟩
        intro e he
        obtain ⟨x, _, rfl⟩ := List.mem_map.1 he
        rfl
      | register c' =>
        exact ⟨hs, [], by simp [Runtime.step, Runtime.WsfTraceRegister], by simp⟩
      | registerHandler h => exact absurd (List.mem_cons_self _ _) (hops h)
    obtain ⟨hs1, a1, e1, h1⟩ := hstep
    obtain ⟨hs2, a2, e2, h2⟩ := ih hops' (st.step op) hs1
    refine ⟨by simpa [Runtime.run] using hs2, a1 ++ a2, ?_, ?_⟩
    · have : (st.run (op :: ops)) = (st.step op).run ops := by simp [Runtime.run]
      rw [this, e2, e1, List.append_assoc]
    · intro e he
      rcases List.mem_append.1 he with h | h
      · exact h1 e h
      · exact h2 e h

/-- C19: registration is last-writer-wins.  Registering `c2` after `c1`
gives the state that registering `c2` alone gives, and from then on, until
the next registration, every sink invocation goes to `c2`, so none goes to a
different `c1`; likewise for token handlers `h1`, `h2`.  Registering on the
start-up state, where nothing is registered, just installs the callback. -/
theorem registration_last_writer_wins (st : Runtime) (c1 c2 h1 h2 : Nat) (ops : List Op) :
    ((st.WsfTraceRegister c1).WsfTraceRegister c2 = st.WsfTraceRegister c2 ∧
      (st.WsfTraceRegisterHandler h1).WsfTraceRegisterHandler h2
        = st.WsfTraceRegisterHandler h2) ∧
    ((∀ c', Op.register c' ∉ ops) →
      ∃ added,
        (((st.WsfTraceRegister c1).WsfTraceRegister c2).run ops).sinkCalls
          = st.sinkCalls ++ added ∧
        (∀ e ∈ added, e.1 = c2) ∧ (c1 ≠ c2 → ∀ e ∈ added, e.1 ≠ c1)) ∧
    ((∀ h', Op.registerHandler h' ∉ ops) →
      ∃ added,
        (((st.WsfTraceRegisterHandler h1).WsfTraceRegisterHandler h2).run ops).handlerCalls
          = st.handlerCalls ++ added ∧
        (∀ e ∈ added, e.1 = h2) ∧ (h1 ≠ h2 → ∀ e ∈ added, e.1 ≠ h1)) ∧
    (∀ capacity : Nat,
      (Runtime.init capacity).sink = none ∧
      ((Runtime.init capacity).WsfTraceRegister c2).sink = some c2 ∧
      (Runtime.init capacity).handler = none ∧
      ((Runtime.init capacity).WsfTraceRegisterHandler h2).handler = some h2) := by
  refine ⟨⟨rfl, rfl⟩, fun hops => ?_, fun hops => ?_, fun _ => ⟨rfl, rfl, rfl, rfl⟩⟩
  · obtain ⟨_, added, e, h⟩ :=
      run_sink_calls c2 ops hops ((st.WsfTraceRegister c1).WsfTraceRegister c2) rfl
    exact ⟨added, e, h, fun hne x hx hx1 => hne (hx1.symm.trans (h x hx))⟩
  · obtain ⟨_, added, e, h⟩ :=
      run_handler_calls h2 ops hops
        ((st.WsfTraceRegisterHandler h1).WsfTraceRegisterHandler h2) rfl
    exact ⟨added, e, h, fun hne x hx hx1 => hne (hx1.symm.trans (h x hx))⟩

theorem registration_last_writer_wins_witness :
    (∀ c', Op.register c' ∉ [Op.enable true, Op.trace ⟨"m", [5]⟩]) ∧
    ((((Runtime.init 8).WsfTraceRegister 1).WsfTraceRegister 2).run
        [Op.enable true, Op.trace ⟨"m", [5]⟩]).sinkCalls = [(2, ⟨"m", [5]⟩)] ∧
    (∃ added,
      ((((Runtime.init 8).WsfTraceRegister 1).WsfTraceRegister 2).run
          [Op.enable true, Op.trace ⟨"m", [5]⟩]).sinkCalls
        = (Runtime.init 8).sinkCalls ++ added ∧
      (∀ e ∈ added, e.1 = 2) ∧ ((1 : Nat) ≠ 2 → ∀ e ∈ added, e.1 ≠ 1)) :=
  ⟨by simp, by decide,
    (registration_last_writer_wins (Runtime.init 8) 1 2 3 4
      [Op.enable true, Op.trace ⟨"m", [5]⟩]).2.1 (by simp)⟩

/-! ## The tags never reach the token (C20) -/

/-- C20: in a Tokenized-Binary build the `WsfToken` call of `WSF_TRACEn`,
`n ≤ 3`, is the same text whatever the subsystem tag, the severity tag and the
message are, and so is the pair `(token, packed argument)` it passes on a
given line of a given module with given scalar arguments; the call is made. -/
theorem token_call_ignores_tags (b : Build) (hb : backend b = .TokenizedBinary)
    (s t m s' t' m' : CExpr) :
    (∀ args : List CExpr, args.length ≤ 3 →
      invoke b (.WSF_TRACE args.length) (s :: t :: m :: args)
        = invoke b (.WSF_TRACE args.length) (s' :: t' :: m' :: args)) ∧
    (∀ (L M : Nat) (vals : List Nat), vals.length ≤ 3 →
      traceToken b L M s t m vals = traceToken b L M s' t' m' vals ∧
      (traceToken b L M s t m vals).isSome = true) := by
  refine ⟨fun args hn => ?_, fun L M vals hn => ?_⟩
  · obtain ⟨arg, h⟩ := invoke_dispatch_token b hb args hn
    rw [h s t m, h s' t' m']
  · obtain _ | ⟨a, _ | ⟨c, _ | ⟨d, _ | ⟨e, r⟩⟩⟩⟩ := vals
    · rw [traceToken_zero b hb, traceToken_zero b hb]; simp
    · rw [traceToken_one b hb, traceToken_one b hb]; simp
    · rw [traceToken_two b hb, traceToken_two b hb]; simp
    · rw [traceToken_three b hb, traceToken_three b hb]; simp
    · simp at hn

theorem token_call_ignores_tags_witness :
    backend exampleTokenBuild = .TokenizedBinary ∧ [1, 2].length ≤ 3 ∧
    traceToken exampleTokenBuild 10 7 (.str "DM") (.str "INFO") (.str "first") [1, 2]
      = traceToken exampleTokenBuild 10 7 (.str "APP") (.str "ERR") (.str "second") [1, 2] ∧
    (traceToken exampleTokenBuild 10 7 (.str "DM") (.str "INFO") (.str "first") [1, 2]).isSome
      = true :=
  ⟨by decide, by decide,
    (token_call_ignores_tags exampleTokenBuild (by decide) (.str "DM") (.str "INFO")
      (.str "first") (.str "APP") (.str "ERR") (.str "second")).2 10 7 [1, 2] (by decide)⟩

/-! ## Formatted dispatch keeps the message and the arguments (C21) -/

/-- C21: in a Formatted-Text build, for `n` in 0..9 and 12,
`WSF_TRACEn(subsys, stat, msg, var1, ..., varn)` is defined as, and expands to,
`WsfTrace(msg, var1, ..., varn)`: the message first, then exactly the `n`
arguments in their order.  The subsystem and severity arguments have no
effect.  `APP_TRACE_INFOn` for `n ≥ 4` passes the bare identifiers `INFO, APP`
to `WSF_TRACEn` and expands to the same call as the quoted tags `"APP",
"INFO"` give. -/
theorem formatted_dispatch_keeps_arguments (b : Build) (hb : backend b = .FormattedText)
    (n : Nat) (hn : n ≤ 9 ∨ n = 12) (s t m : CExpr) (vals : List CExpr)
    (hlen : vals.length = n) :
    macroDef b (.WSF_TRACE n) = some ⟨dispatchParams n, .call .WsfTrace (msgAndVars n)⟩ ∧
    invoke b (.WSF_TRACE n) (s :: t :: m :: vals) = some (.call .WsfTrace (m :: vals)) ∧
    (∀ s' t' : CExpr,
      invoke b (.WSF_TRACE n) (s' :: t' :: m :: vals)
        = invoke b (.WSF_TRACE n) (s :: t :: m :: vals)) ∧
    (4 ≤ n →
      expandStep b (.call (.mac (.TRACE .APP .INFO n)) (m :: vals))
        = some (.call (.mac (.WSF_TRACE n)) (.ident "INFO" :: .ident "APP" :: m :: vals)) ∧
      invoke b (.TRACE .APP .INFO n) (m :: vals) = some (.call .WsfTrace (m :: vals)) ∧
      invoke b (.TRACE .APP .INFO n) (m :: vals)
        = invoke b (.WSF_TRACE n) (.str "APP" :: .str "INFO" :: m :: vals)) := by
  have hd := (mem_dispatchArities_iff n).2 hn
  have hinv : ∀ s t : CExpr,
      invoke b (.WSF_TRACE n) (s :: t :: m :: vals) = some (.call .WsfTrace (m :: vals)) :=
    fun s t => invoke_dispatch_formatted b hb n hd s t m vals hlen
  refine ⟨by simp [macroDef, hb, block, formattedBlock, hd], hinv s t,
    fun s' t' => by rw [hinv s' t', hinv s t], fun h4 => ?_⟩
  have ha : n ∈ subsysArities .APP .INFO := by simpa [subsysArities] using hd
  have htags : subsysTags .APP .INFO n = [.ident "INFO", .ident "APP"] := by
    simp [subsysTags, h4]
  refine ⟨?_, ?_, ?_⟩
  · have h := step_subsys_plain b .APP .INFO n rfl ha m vals hlen
    rw [htags] at h
    exact h
  · exact invoke_subsys_plain_formatted b hb .APP .INFO n rfl ha m vals hlen
  · rw [invoke_subsys_plain_formatted b hb .APP .INFO n rfl ha m vals hlen, hinv]

theorem formatted_dispatch_keeps_arguments_witness :
    backend exampleFormattedBuild = .FormattedText ∧ ((4 : Nat) ≤ 9 ∨ (4 : Nat) = 12) ∧
    [CExpr.lit 1, CExpr.lit 2, CExpr.lit 3, CExpr.lit 4].length = 4 ∧
    invoke exampleFormattedBuild (.WSF_TRACE 4)
        [.str "APP", .str "INFO", .str "m", .lit 1, .lit 2, .lit 3, .lit 4]
      = some (.call .WsfTrace [.str "m", .lit 1, .lit 2, .lit 3, .lit 4]) ∧
    invoke exampleFormattedBuild (.TRACE .APP .INFO 4)
        [.str "m", .lit 1, .lit 2, .lit 3, .lit 4]
      = some (.call .WsfTrace [.str "m", .lit 1, .lit 2, .lit 3, .lit 4]) :=
  ⟨by decide, Or.inl (by decide), rfl,
    (formatted_dispatch_keeps_arguments exampleFormattedBuild (by decide) 4
      (Or.inl (by decide)) (.str "APP") (.str "INFO") (.str "m")
      [.lit 1, .lit 2, .lit 3, .lit 4] rfl).2.1,
    ((formatted_dispatch_keeps_arguments exampleFormattedBuild (by decide) 4
      (Or.inl (by decide)) (.str "APP") (.str "INFO") (.str "m")
      [.lit 1, .lit 2, .lit 3, .lit 4] rfl).2.2.2 (by decide)).2.1⟩

end WsfTrace
